import Mathlib

/-!
Verification development for the RT73 codeplug codec (rt73.py).

The Python program translates a fixed-layout binary memory image (a radio
"codeplug") into a structured document and back.  This file gives a shallow
embedding of the codec core: the field-schema tables, the generic record
encode/decode engine (`Parser.fromBytes` / `Parser.toBytes`), the layout
planner arithmetic, tone resolution, and the full `decompileCodeplug` /
`compileCodeplug` pipelines, together with theorems about them.

Modelling conventions:
* Python byte strings / bytearrays are modelled by `PyBytes`: a length plus a
  function from index to byte value, with Python's clamping slice semantics.
* Python runtime values that appear in a decoded document (str, int, float)
  are modelled by `Value`: strings, and numbers as `ℚ` (Python's `==` treats
  `3 == 3.0` as true, which `ℚ` reproduces; all floats appearing in the
  program are exact decimals).
* Fallible Python code (uncaught exceptions) is modelled with `Except Err`.
-/

set_option allowUnsafeReducibility true in
attribute [semireducible] Rat.add Rat.sub Rat.mul Rat.inv Rat.div Rat.neg Rat.ofScientific

deriving instance DecidableEq for Except

/-- Python exception kinds that the codec can raise. -/
inductive Err where
  | indexError
  | keyError
  | overflowError
  | valueError
  | attrError
  | typeError
  | unicodeError
  | nameError
  | sizeMismatch
deriving DecidableEq, Repr

/-- A Python runtime value held in a decoded document: a string, or a number.
Python numbers (int and float) are modelled uniformly as `ℚ`; every float
literal in the program is an exact decimal, and Python's `==` identifies
`17` with `17.0` exactly as `ℚ` does. -/
inductive Value where
  | s (v : String)
  | q (v : ℚ)
deriving DecidableEq, Repr

/-- Python `int(x)` on a number: truncation toward zero. -/
def pyTrunc (x : ℚ) : ℚ :=
  if x < 0 then (-((-x).floor) : ℤ) else (x.floor : ℤ)

/-- Python `x >> k`.  Only ever applied to integer values in the program
(a float would raise `TypeError`); on integers `>>` is flooring shift. -/
def pyShr (x : ℚ) (k : Nat) : ℚ := (x.floor / (2 ^ k : ℤ) : ℤ)

/-- Python `x << k`.  Only ever applied to integer values in the program. -/
def pyShl (x : ℚ) (k : Nat) : ℚ := x * (2 ^ k : ℚ)

/-- Python `a & m` for an arbitrary (possibly negative) int `a` and a mask
`0 ≤ m ≤ 0xFF`: the low eight two's-complement bits of `a`, masked. -/
def pyAnd (a : ℤ) (m : Nat) : Nat := (a % 256).toNat &&& m

/-- `st.endswith(c)` for a single-character suffix. -/
def pyEndsWith (st : String) (c : Char) : Bool := st.data.getLast? = some c

/-- `st.replace(c, "")`: every occurrence of the character is removed. -/
def pyRemoveChar (st : String) (c : Char) : String :=
  String.mk (st.data.filter (fun d => d ≠ c))

/-- The digits of a decimal numeral, if the character list is one. -/
def parseDigits (l : List Char) : Option Nat :=
  if l = [] ∨ ¬ l.all (fun c => c.isDigit) then none
  else some (l.foldl (fun acc c => acc * 10 + (c.toNat - 48)) 0)

/-- `int(st)` on a string: an optionally signed decimal numeral,
`ValueError` otherwise. -/
def pyParseInt (st : String) : Except Err ℤ :=
  match st.data with
  | '-' :: rest =>
    match parseDigits rest with
    | some n => .ok (-(n : ℤ))
    | none => .error .valueError
  | l =>
    match parseDigits l with
    | some n => .ok ((n : ℤ))
    | none => .error .valueError

/-- Python `int(...)` applied to a document value (`Parser.toBytes`, MaskNum
case): numbers truncate toward zero, strings are parsed as a decimal int
(`ValueError` if unparsable). -/
def pyIntOfValue : Value → Except Err ℤ
  | .q x => .ok (pyTrunc x).num
  | .s st => pyParseInt st

/-- `int.from_bytes(bytes, byteorder='little')`. -/
def fromBytesLE (l : List Nat) : Nat := l.foldr (fun b acc => b + 256 * acc) 0

/-- `v.to_bytes(length=len, byteorder='little')` for a Python number: raises
`OverflowError` when negative or too large for the width (floats do not carry
`to_bytes` at all, which the `den = 1` requirement captures). -/
def pyToBytes (v : ℚ) (len : Nat) : Except Err (List Nat) :=
  if v.den ≠ 1 then .error .attrError
  else if v.num < 0 then .error .overflowError
  else if v.num.toNat < 256 ^ len then
    .ok ((List.range len).map (fun i => v.num.toNat / 256 ^ i % 256))
  else .error .overflowError

/-- `bytes.decode('ascii')`: fails when any byte exceeds 0x7F. -/
def decodeAscii (l : List Nat) : Except Err String :=
  if l.all (· < 128) then .ok (String.mk (l.map (fun b => Char.ofNat b)))
  else .error .unicodeError

/-- `.rstrip("\x00")`: drop trailing NUL characters. -/
def rstripNul (st : String) : String :=
  String.mk (st.data.reverse.dropWhile (fun c => c = '\x00')).reverse

/-- `bytes.decode('ascii').rstrip("\x00")` as used by the string field decoder
and the quick-message decoder. -/
def decodeAsciiRstrip (l : List Nat) : Except Err String := do
  pure (rstripNul (← decodeAscii l))

/-- `str.encode('ascii')`: fails when any character is not ASCII. -/
def encodeAscii (st : String) : Except Err (List Nat) :=
  if st.data.all (fun c => c.toNat < 128) then .ok (st.data.map (fun c => c.toNat))
  else .error .unicodeError

/-- `str(n).zfill(3)` for building `D<code>N` / `D<code>I` tone strings. -/
def zfill (st : String) (w : Nat) : String :=
  String.mk (List.replicate (w - st.length) '0') ++ st

/-- Python list subscription `l[i]` with an int index: negative indices wrap
from the end, out-of-range raises `IndexError`; a float index raises
`TypeError`. -/
def pyListGet (l : List α) (i : ℚ) : Except Err α :=
  if i.den ≠ 1 then .error .typeError
  else
    let n : ℤ := if i.num < 0 then (l.length : ℤ) + i.num else i.num
    if h : 0 ≤ n ∧ n.toNat < l.length then .ok (l.get ⟨n.toNat, h.2⟩)
    else .error .indexError

/-- Python `l.index(v)` over a list of numbers, compared (Python `==`)
against a document value; `ValueError` when absent. -/
def pyListIndex (l : List ℚ) (v : Value) : Except Err Nat :=
  match l.findIdx? (fun x => Value.q x = v) with
  | some i => .ok i
  | none => .error .valueError

/-- A Python bytes / bytearray object: a length together with the byte at
each index below the length. -/
structure PyBytes where
  size : Nat
  byte : Nat → Nat

namespace PyBytes

/-- `bytearray(b"\x00" * n)`. -/
def zeros (n : Nat) : PyBytes := ⟨n, fun _ => 0⟩

/-- A concrete buffer from a list of bytes. -/
def ofList (l : List Nat) : PyBytes := ⟨l.length, fun i => l.getD i 0⟩

/-- `data[i]` (read): `IndexError` beyond the end. -/
def get (b : PyBytes) (i : Nat) : Except Err Nat :=
  if i < b.size then .ok (b.byte i) else .error .indexError

/-- `data[i] = v`: `IndexError` beyond the end. -/
def set (b : PyBytes) (i : Nat) (v : Nat) : Except Err PyBytes :=
  if i < b.size then
    .ok ⟨b.size, fun j => if j = i then v else b.byte j⟩
  else .error .indexError

/-- `data[i] |= v`: `IndexError` beyond the end. -/
def orAt (b : PyBytes) (i : Nat) (v : Nat) : Except Err PyBytes :=
  if i < b.size then
    .ok ⟨b.size, fun j => if j = i then b.byte i ||| v else b.byte j⟩
  else .error .indexError

/-- `data[i:j]` with Python's clamping slice semantics (nonnegative bounds). -/
def slice (b : PyBytes) (i j : Nat) : List Nat :=
  let i' := min i b.size
  let j' := min j b.size
  (List.range (j' - i')).map (fun k => b.byte (i' + k))

/-- `data[i:j]` for possibly negative Python slice bounds: a negative bound
counts from the end (then clamps at 0). -/
def sliceInt (b : PyBytes) (i j : ℤ) : List Nat :=
  let norm : ℤ → Nat := fun a => if a < 0 then ((b.size : ℤ) + a).toNat else a.toNat
  b.slice (norm i) (norm j)

/-- The whole contents as a list of bytes. -/
def toList (b : PyBytes) : List Nat := b.slice 0 b.size

/-- A slice extracted as its own buffer (Python slicing copies). -/
def sub (b : PyBytes) (i j : Nat) : PyBytes := ofList (b.slice i j)

/-- A slice with possibly negative bounds, as its own buffer. -/
def subInt (b : PyBytes) (i j : ℤ) : PyBytes := ofList (b.sliceInt i j)

/-- `data[i:j] = x` for a bytearray: Python replaces the (clamped) range
`[i', j')` with the bytes of `x`, shifting the tail and changing the length
when `x` is not the same size as the range. -/
def setSlice (b : PyBytes) (i j : Nat) (x : List Nat) : PyBytes :=
  let i' := min i b.size
  let j' := min (max j i') b.size
  ⟨b.size - (j' - i') + x.length,
    fun k =>
      if k < i' then b.byte k
      else if k < i' + x.length then x.getD (k - i') 0
      else b.byte (k - (i' + x.length) + j')⟩

end PyBytes

/-- One field descriptor of a schema table, mirroring the Python lists
`["Bitmask", off, mask, enum]`, `["String", off, len]`, `["Number", off, len]`
and `["MaskNum", off, mask(, decode, encode)]`.  Enum tables are kept as
association lists in insertion order; transform pairs are (decode, encode). -/
inductive FieldDef where
  | bitmask (off : Nat) (mask : Nat) (enum : List (Nat × String))
  | str (off : Nat) (len : Nat)
  | num (off : Nat) (len : Nat)
  | masknum (off : Nat) (mask : Nat) (tf : Option ((ℚ → ℚ) × (ℚ → ℚ)))

/-- Dictionary lookup `enum[b]` for a bitmask enum table. -/
def enumLookup (enum : List (Nat × String)) (b : Nat) : Option String :=
  (enum.find? (fun p => p.1 = b)).map (·.2)

/-- Decode one field from a record (the per-field body of
`Parser.fromBytes`).  A bitmask enum miss is caught and yields `""`
(with a diagnostic in the original); other failures (IndexError on a direct
byte access, non-ASCII text in a String field) propagate. -/
def readField (d : FieldDef) (b : PyBytes) : Except Err Value :=
  match d with
  | .bitmask off mask enum => do
      let byte ← b.get off
      match enumLookup enum (byte &&& mask) with
      | some nm => pure (.s nm)
      | none => pure (.s "")
  | .str off len => do
      pure (.s (← decodeAsciiRstrip (b.slice off (off + len))))
  | .num off len =>
      pure (.q (fromBytesLE (b.slice off (off + len))))
  | .masknum off mask tf => do
      let byte ← b.get off
      let v : ℚ := (byte &&& mask : Nat)
      match tf with
      | some (dec, _) => pure (.q (dec v))
      | none => pure (.q v)

/-- `Parser.fromBytes`: decode every field of a schema table against a byte
window, producing the record as an association list in table order. -/
def fromBytes (defs : List (String × FieldDef)) (b : PyBytes) :
    Except Err (List (String × Value)) :=
  defs.mapM (fun p => do pure (p.1, ← readField p.2 b))

/-- Encode one field into a buffer (the per-field body of `Parser.toBytes`).
`v?` is `item[key]` (`KeyError` when absent).  Bitmask fields OR in every
enum key whose label equals the value; String fields write the encoded bytes
without padding; Number fields write `to_bytes(len, little)`; MaskNum fields
OR in `int(encode(v)) & mask` — silently masked, never width-checked. -/
def writeField (b : PyBytes) (d : FieldDef) (v? : Option Value) :
    Except Err PyBytes :=
  match v? with
  | none => .error .keyError
  | some v =>
    match d with
    | .bitmask off _mask enum =>
        enum.foldlM (fun b p => if Value.s p.2 = v then b.orAt off p.1 else pure b) b
    | .str off _len => do
        match v with
        | .s st => do
            let enc ← encodeAscii st
            (List.range st.length).foldlM
              (fun b p => b.set (off + p) (enc.getD p 0)) b
        | .q _ => .error .attrError
    | .num off len => do
        match v with
        | .q x => do
            let bytes ← pyToBytes x len
            pure (b.setSlice off (off + len) bytes)
        | .s _ => .error .attrError
    | .masknum off mask tf => do
        match tf with
        | some (_, enc) =>
            match v with
            | .q x => b.orAt off (pyAnd (pyTrunc (enc x)).num mask)
            | .s _ => .error .typeError
        | none => do
            let i ← pyIntOfValue v
            b.orAt off (pyAnd i mask)

/-- `Parser.toBytes`: encode every field of a schema table from a record
into a caller-supplied buffer, in table order. -/
def toBytes (b : PyBytes) (defs : List (String × FieldDef))
    (item : List (String × Value)) : Except Err PyBytes :=
  defs.foldlM (fun b p => writeField b p.2 (item.lookup p.1)) b

/-! Protocol constants (record sizes, fixed addresses, tone tables). -/

def channel_record_size : Nat := 32
def zone_record_size : Nat := 32
def contact_record_size : Nat := 16
def message_record_size : Nat := 40
def rx_group_record_size : Nat := 210
def scan_list_record_size : Nat := 216

def channel_count_address : Nat := 0x1391
def channel_count_len : Nat := 2
def contact_count_address : Nat := 0x1393
def contact_count_len : Nat := 2
def zone_count_address : Nat := 0x138F
def zone_count_len : Nat := 2

def contact_start_address : Nat := 0x1B400
def rx_group_start_address : Nat := 0xE6BF
def scan_list_start_address : Nat := 0x13CF

def message_block_1_start_addr : Nat := 0x0000FAE
def message_block_1_count : Nat := 15
def message_block_2_start_addr : Nat := 0x000012B
def message_block_2_count : Nat := 85

def aprs_dmr_channel_start_address : Nat := 0x0000E4B

/-- The CTCSS tone table (51 entries). -/
def CTCSS_Tones : List ℚ :=
  [ 62.5, 67.0, 69.3, 71.9, 74.4, 77.0, 79.7, 82.5, 85.4, 88.5, 91.5, 94.8, 97.4,
    100.0, 103.5, 107.2, 110.9, 114.8, 118.8,
    123.0, 127.3, 131.8, 136.5, 141.3, 146.2, 151.4, 156.7, 159.8, 162.2, 165.5,
    167.9, 171.3, 173.8, 177.3, 179.9, 183.5, 186.2,
    189.9, 192.8, 196.6, 199.5, 203.5, 206.5, 210.7, 218.1, 225.7, 229.1, 233.6,
    241.8, 250.3, 254.1 ]

/-- The DCS code table. -/
def DCS_Codes : List Nat :=
  [ 17, 23, 25, 26, 31, 32, 36, 43, 47, 50, 51, 53, 54, 65, 71, 72, 73, 74, 114,
    115, 116, 122, 125, 131, 132, 134, 143, 145, 152, 155, 156, 162, 165, 172, 174, 205, 212, 223,
    225, 226, 243, 244, 245, 246, 251, 252, 255, 261, 263, 265, 266, 271, 274, 306, 311, 315, 325,
    331, 332, 343, 346, 351, 356, 364, 365, 371, 411, 412, 413, 423, 431, 432, 445, 446, 452, 454,
    455, 462, 464, 465, 466, 503, 506, 516, 523, 526, 532, 546, 565, 606, 612, 624, 627, 631, 632,
    645, 646, 654, 662, 664, 703, 712, 723, 731, 732, 734, 743, 754 ]

/-- Button function enum, in dict insertion order. -/
def Button_IDs : List (Nat × String) :=
  [ (0x00, "UNDEFINED"), (0x01, "HI_LO_POWER"), (0x02, "BACKLIGHT_TOGGLE"),
    (0x03, "KEYLOCK_TOGGLE"), (0x04, "VOX"), (0x05, "ZONE_SWITCH"), (0x06, "SCAN"),
    (0x07, "SCAN_MODE_TOGGLE"), (0x08, "RPTR_TALKAROUND"), (0x09, "EMERGENCY_ALARM"),
    (0x0A, "ENCRYPTION_TOGGLE"), (0x0B, "CONTACTS"), (0x0C, "SMS"), (0x0D, "RADIO_REVIVE"),
    (0x0E, "RADIO_DETECTION"), (0x0F, "RADIO_KILL"), (0x10, "REMOTE_MONITOR"),
    (0x11, "MONITOR"), (0x12, "PERMANENT_MONITOR"), (0x13, "TONEBURST_1750HZ"),
    (0x31, "DTMF_TOGGLE"), (0x34, "ROAM_TOGGLE"), (0x1B, "GPS_TOGGLE"), (0x28, "MENU"),
    (0x37, "UP"), (0x38, "DOWN"), (0x39, "BACK"), (0x3A, "DQT_QT"), (0x3B, "A_B_TOGGLE"),
    (0x3C, "VOL"), (0x3D, "VFO"), (0x3E, "MANDATORY_MONITOR"), (0x3F, "DUAL_WATCH_TOGGLE") ]

/-! Schema tables, one per record kind, in dict insertion order. -/

def dev_info : List (String × FieldDef) :=
  [ ("Factory Number", .str 0x00 16),
    ("Serial Number", .str 0x10 16),
    ("Model Number", .str 0x20 16),
    ("FW Version", .str 0x30 31),
    ("Frequency range", .str 0x50 16),
    ("Update date", .str 0x60 16),
    ("Firmware ID", .str 0x70 16) ]

def basic_parameters : List (String × FieldDef) :=
  [ ("Radio name", .str 0x80 10),
    ("DMR ID", .num 0x90 3),
    ("Language", .bitmask 0x95 0x10 [(0x00, "Chinese"), (0x10, "English")]),
    ("TimeoutTimer", .num 0x134F 1),
    ("Busy channel lockout", .bitmask 0xA6 0x80 [(0x00, "Off"), (0x80, "On")]),
    ("VOX", .bitmask 0xA6 0x40 [(0x00, "Off"), (0x40, "On")]),
    ("VOX sensitivity", .masknum 0xA6 0x0F (some (fun x => x + 1, fun x => x - 1))),
    ("Scan mode", .bitmask 0x137D 0x03 [(0x00, "CO"), (0x01, "TO"), (0x02, "SE")]),
    ("End tone types", .bitmask 0x1381 0x03
      [(0x00, "55Hz"), (0x01, "120\x27"), (0x02, "180"), (0x03, "240")]),
    ("Squelch A level", .masknum 0x93 0x0F none),
    ("Squelch B level", .masknum 0x93 0xF0 (some (fun x => pyShr x 4, fun x => pyShl x 4))),
    ("Backlight", .bitmask 0x95 0x28 [(0x00, "Off"), (0x08, "On"), (0x20, "Auto")]),
    ("Keylock", .bitmask 0x95 0x44
      [(0x00, "Off"), (0x04, "Auto"), (0x40, "Manual"), (0x44, "Manual & Auto")]),
    ("Roaming", .bitmask 0x137B 0x01 [(0x00, "Off"), (0x01, "On")]),
    ("Roaming mode", .bitmask 0x1375 0x03
      [(0x00, "Auto"), (0x01, "Manual"), (0x02, "Strong RSSI Priority")]),
    ("RSSI set", .masknum 0x1376 0xFF (some (fun x => -90 - x, fun x => -1 * x - 90))),
    ("Connect check timer", .masknum 0x1377 0xFF none),
    ("Repeater check timer", .masknum 0x1378 0xFF none),
    ("Connect timer", .masknum 0x1379 0x09 (some (fun x => x + 1, fun x => x - 1))),
    ("Record set", .bitmask 0x1380 0x03
      [(0x00, "None"), (0x01, "TX"), (0x02, "RX"), (0x03, "TX/RX")]) ]

def common_menu_parameters : List (String × FieldDef) :=
  [ ("Contact list", .bitmask 0xAE 0x01 [(0x00, "Off"), (0x01, "On")]),
    ("New contact", .bitmask 0xAE 0x02 [(0x00, "Off"), (0x02, "On")]),
    ("Manual dial", .bitmask 0xAE 0x04 [(0x00, "Off"), (0x04, "On")]),
    ("Ham contacts", .bitmask 0xAE 0x08 [(0x00, "Off"), (0x08, "On")]),
    ("Ham groups", .bitmask 0xAE 0x10 [(0x00, "Off"), (0x10, "On")]),
    ("Radio check", .bitmask 0xBA 0x01 [(0x00, "Off"), (0x01, "On")]),
    ("Call alert", .bitmask 0xBA 0x02 [(0x00, "Off"), (0x02, "On")]),
    ("Radio monitor", .bitmask 0xBA 0x04 [(0x00, "Off"), (0x04, "On")]),
    ("Radio disable", .bitmask 0xBA 0x08 [(0x00, "Off"), (0x08, "On")]),
    ("Radio enable", .bitmask 0xBA 0x10 [(0x00, "Off"), (0x10, "On")]),
    ("SMS write", .bitmask 0xAF 0x01 [(0x00, "Off"), (0x01, "On")]),
    ("SMS quick msg", .bitmask 0xAF 0x02 [(0x00, "Off"), (0x02, "On")]),
    ("SMS inbox", .bitmask 0xAF 0x04 [(0x00, "Off"), (0x04, "On")]),
    ("SMS outbox", .bitmask 0xAF 0x08 [(0x00, "Off"), (0x08, "On")]),
    ("SMS drafts", .bitmask 0xAF 0x10 [(0x00, "Off"), (0x10, "On")]),
    ("Call log outgoing", .bitmask 0xB0 0x01 [(0x00, "Off"), (0x01, "On")]),
    ("Call log received", .bitmask 0xB0 0x02 [(0x00, "Off"), (0x02, "On")]),
    ("Call log missed", .bitmask 0xB0 0x04 [(0x00, "Off"), (0x04, "On")]),
    ("Scan on/off", .bitmask 0xB1 0x01 [(0x00, "Off"), (0x01, "On")]),
    ("Scan list", .bitmask 0xB1 0x02 [(0x00, "Off"), (0x02, "On")]),
    ("Scan mode", .bitmask 0xB1 0x04 [(0x00, "Off"), (0x04, "On")]),
    ("Roam on/off", .bitmask 0xB1 0x08 [(0x00, "Off"), (0x08, "On")]),
    ("Scan running on/off", .bitmask 0x10 0x10 [(0x00, "Off"), (0x10, "On")]),
    ("Zone list on/off", .bitmask 0xB2 0x01 [(0x00, "Off"), (0x01, "On")]),
    ("Language", .bitmask 0xB3 0x01 [(0x00, "Off"), (0x01, "On")]),
    ("Keylock", .bitmask 0xB3 0x02 [(0x00, "Off"), (0x02, "On")]),
    ("Backlight", .bitmask 0xB3 0x04 [(0x00, "Off"), (0x04, "On")]),
    ("LEDs", .bitmask 0xB3 0x08 [(0x00, "Off"), (0x08, "On")]),
    ("Display mode", .bitmask 0xB3 0x10 [(0x00, "Off"), (0x10, "On")]),
    ("Vox", .bitmask 0xB3 0x20 [(0x00, "Off"), (0x20, "On")]),
    ("Channel sw", .bitmask 0xB3 0x40 [(0x00, "Off"), (0x40, "On")]),
    ("Factory reset", .bitmask 0xB3 0x80 [(0x00, "Off"), (0x80, "On")]),
    ("Local repeat", .bitmask 0xBC 0x01 [(0x00, "Off"), (0x01, "On")]),
    ("ToT", .bitmask 0xB5 0x01 [(0x00, "Off"), (0x01, "On")]),
    ("Power set", .bitmask 0xB5 0x02 [(0x00, "Off"), (0x02, "On")]),
    ("Repeat set", .bitmask 0xB5 0x04 [(0x00, "Off"), (0x04, "On")]),
    ("Sleep mode", .bitmask 0xB5 0x08 [(0x00, "Off"), (0x08, "On")]),
    ("Squelch level", .bitmask 0xB5 0x10 [(0x00, "Off"), (0x10, "On")]),
    ("Wide/Narrow band", .bitmask 0xB5 0x20 [(0x00, "Off"), (0x20, "On")]),
    ("Busy channel lockout", .bitmask 0xB5 0x40 [(0x00, "Off"), (0x40, "On")]),
    ("Signalling", .bitmask 0xB5 0x80 [(0x00, "Off"), (0x80, "On")]),
    ("End tone types", .bitmask 0xBD 0x01 [(0x00, "Off"), (0x01, "On")]),
    ("Enc level", .bitmask 0xB4 0x01 [(0x00, "Off"), (0x01, "On")]),
    ("Profiles", .bitmask 0xB6 0x01 [(0x00, "Off"), (0x01, "On")]),
    ("Keytone", .bitmask 0xB6 0x02 [(0x00, "Off"), (0x02, "On")]),
    ("Power tone", .bitmask 0xB6 0x04 [(0x00, "Off"), (0x04, "On")]),
    ("Msg tone", .bitmask 0xB6 0x08 [(0x00, "Off"), (0x08, "On")]),
    ("Private call tone", .bitmask 0xB6 0x10 [(0x00, "Off"), (0x10, "On")]),
    ("Group call tone", .bitmask 0xB6 0x20 [(0x00, "Off"), (0x20, "On")]),
    ("Call tone", .bitmask 0xB6 0x40 [(0x00, "Off"), (0x40, "On")]),
    ("Power on tone", .bitmask 0xB6 0x80 [(0x00, "Off"), (0x80, "On")]),
    ("GPS", .bitmask 0xB7 0x01 [(0x00, "Off"), (0x01, "On")]),
    ("Torch", .bitmask 0xB7 0x02 [(0x00, "Off"), (0x02, "On")]),
    ("FM radio", .bitmask 0xB7 0x04 [(0x00, "Off"), (0x04, "On")]),
    ("Time", .bitmask 0xB7 0x08 [(0x00, "Off"), (0x08, "On")]),
    ("DTMF", .bitmask 0xB7 0x10 [(0x00, "Off"), (0x10, "On")]),
    ("Speaker handmic", .bitmask 0xB7 0x20 [(0x00, "Off"), (0x20, "On")]),
    ("APRS", .bitmask 0xB7 0x40 [(0x00, "Off"), (0x40, "On")]),
    ("Record set", .bitmask 0xB8 0x01 [(0x00, "Off"), (0x01, "On")]),
    ("Record list", .bitmask 0xB8 0x02 [(0x00, "Off"), (0x02, "On")]),
    ("Record clear", .bitmask 0xB8 0x04 [(0x00, "Off"), (0x04, "On")]),
    ("Record space", .bitmask 0xB8 0x08 [(0x00, "Off"), (0x08, "On")]),
    ("Radio ID", .bitmask 0xB9 0x01 [(0x00, "Off"), (0x01, "On")]),
    ("RX group list", .bitmask 0xB9 0x02 [(0x00, "Off"), (0x02, "On")]),
    ("Channel contact", .bitmask 0xB9 0x04 [(0x00, "Off"), (0x04, "On")]),
    ("Version", .bitmask 0xB9 0x08 [(0x00, "Off"), (0x08, "On")]),
    ("VFO", .bitmask 0xBB 0x01 [(0x00, "Off"), (0x01, "On")]) ]

def prompt_tone_parameters : List (String × FieldDef) :=
  [ ("Profiles", .bitmask 0xA7 0x01 [(0x00, "Standard"), (0x01, "Silent")]),
    ("SMS Prompt", .masknum 0xA8 0x0F none),
    ("Private call Tone", .masknum 0xA9 0x05 none),
    ("Group call Tone", .masknum 0xAA 0x05 none),
    ("Key tone", .bitmask 0xAB 0x80 [(0x00, "Off"), (0x80, "On")]),
    ("Key tone vol", .masknum 0xAB 0x0F none),
    ("Low bat alert tone", .bitmask 0xAC 0x80 [(0x00, "Off"), (0x80, "On")]),
    ("Low bat alert vol", .masknum 0xAC 0x0F none),
    ("Call hang up", .bitmask 0x12D8 0x01 [(0x00, "Silent"), (0x01, "Prompt Tone")]),
    ("Boot ringtone", .bitmask 0x95 0x02 [(0x00, "Off"), (0x02, "On")]),
    ("Roaming restart prompt", .masknum 0x1383 0x0F none),
    ("Repeater selected prompt", .masknum 0x1383 0x0F none) ]

def indicator_parameters : List (String × FieldDef) :=
  [ ("All", .bitmask 0xAD 0x10 [(0x10, "On"), (0x00, "Off")]),
    ("Tx", .bitmask 0xAD 0x08 [(0x08, "On"), (0x00, "Off")]),
    ("Rx", .bitmask 0xAD 0x04 [(0x04, "On"), (0x00, "Off")]),
    ("Scanning", .bitmask 0xAD 0x02 [(0x02, "On"), (0x00, "Off")]),
    ("Low battery", .bitmask 0xAD 0x01 [(0x01, "On"), (0x00, "Off")]) ]

def button_preset_parameters : List (String × FieldDef) :=
  [ ("LongPressDuration", .bitmask 0xC1 0xFF
      [(0x00, "0.5"), (0x01, "1.0"), (0x02, "1.5"), (0x03, "2.0"), (0x04, "2.5"),
       (0x05, "3.0"), (0x06, "3.5"), (0x07, "4.0"), (0x08, "4.5"), (0x09, "5.0")]),
    ("P1 LongPress", .bitmask 0xC2 0xFF Button_IDs),
    ("P1 ShortPress", .bitmask 0xC3 0xFF Button_IDs),
    ("P2 LongPress", .bitmask 0xC4 0xFF Button_IDs),
    ("P2 ShortPress", .bitmask 0xC5 0xFF Button_IDs),
    ("P3 LongPress", .bitmask 0xC6 0xFF Button_IDs),
    ("P3 ShortPress", .bitmask 0xC7 0xFF Button_IDs),
    ("P4 LongPress", .bitmask 0xC8 0xFF Button_IDs),
    ("P4 ShortPress", .bitmask 0xC9 0xFF Button_IDs),
    ("P5 LongPress", .bitmask 0xCA 0xFF Button_IDs),
    ("P5 ShortPress", .bitmask 0xCB 0xFF Button_IDs),
    ("P6 LongPress", .bitmask 0xCC 0xFF Button_IDs),
    ("P6 ShortPress", .bitmask 0xCD 0xFF Button_IDs),
    ("P7 LongPress", .bitmask 0x1385 0xFF Button_IDs),
    ("P7 ShortPress", .bitmask 0x1386 0xFF Button_IDs) ]

def mic_gain_parameters : List (String × FieldDef) :=
  [ ("Mic gain 1", .bitmask 0xA4 0x80 [(0x80, "On"), (0x00, "Off")]),
    ("Mic gain 1 setting", .masknum 0xA4 0x07
      (some (fun x => x * 4, fun x => pyTrunc (x / 4)))),
    ("Mic gain 2", .bitmask 0xA5 0x80 [(0x80, "On"), (0x00, "Off")]),
    ("Mic gain 2 setting", .masknum 0xA5 0x1F none) ]

def dmr_parameters : List (String × FieldDef) :=
  [ ("Remote monitor duration", .masknum 0xFAC 0xFF
      (some (fun x => 10 + x * 10, fun x => x / 10 - 1))),
    ("Remote monitor decode", .bitmask 0xFAD 0x80 [(0x00, "Off"), (0x80, "On")]),
    ("Remote kill decode", .bitmask 0xFAD 0x40 [(0x00, "Off"), (0x40, "On")]),
    ("Radio detection decode", .bitmask 0xFAD 0x20 [(0x00, "Off"), (0x20, "On")]),
    ("Radio revive decode", .bitmask 0xFAD 0x10 [(0x00, "Off"), (0x10, "On")]),
    ("Call alert", .bitmask 0xFAD 0x08 [(0x00, "Off"), (0x08, "On")]),
    ("Group call hang time", .masknum 0x1350 0x0F
      (some (fun x => x * 500, fun x => pyTrunc (x / 500)))),
    ("Private call hang time", .masknum 0x1351 0x0F
      (some (fun x => x * 500, fun x => pyTrunc (x / 500)))),
    ("Import delay", .masknum 0x1370 0xFF (some (fun x => x * 10, fun x => x / 10))),
    ("DTMF duration (on-time)", .masknum 0x1371 0xFF
      (some (fun x => x * 10, fun x => pyTrunc (x / 10)))),
    ("DTMF duration (off-time)", .masknum 0x1372 0xFF
      (some (fun x => x * 10, fun x => pyTrunc (x / 10)))),
    ("DTMF volume (local)", .masknum 0x1373 0x0F none),
    ("DTMF On/off", .bitmask 0x1363 0x01 [(0x00, "Off"), (0x01, "On")]),
    ("GPS On/off", .bitmask 0x137A 0x01 [(0x00, "Off"), (0x01, "On")]),
    ("GPS Interval", .masknum 0x1353 0xFF none),
    ("GPS Channel group ID", .num 0x1354 2),
    ("GPS Channel channel ID", .num 0x1356 2) ]

def aprs_parameters : List (String × FieldDef) :=
  [ ("Manual TX interval", .num 0xE8B 1),
    ("Auto TX interval", .masknum 0xE8C 0xFF
      (some (fun x => x * 30, fun x => pyTrunc (x / 30)))),
    ("Beacon", .bitmask 0xE8E 0x01 [(0x00, "FIXED_LOCATION"), (0x01, "GPS_LOCATION")]),
    ("LatNS", .bitmask 0xE8F 0x01 [(0x00, "North"), (0x01, "South")]),
    ("Lat Degrees", .num 0xE91 4),
    ("LongEW", .bitmask 0xE90 0x01 [(0x00, "East"), (0x01, "West")]),
    ("Long Degrees", .num 0xE95 4),
    ("AX25 TX Freq", .num 0xE99 4),
    ("AX25 TX Power", .bitmask 0xEA1 0x01 [(0x00, "LOW"), (0x01, "HIGH")]),
    ("AX25 QT/DQT", .num 0xE9D 2),
    ("AX25 APRS Tone", .bitmask 0xEA2 0x01 [(0x00, "OFF"), (0x01, "ON")]),
    ("AX25 TX Delay", .masknum 0xE9F 0xFF
      (some (fun x => x * 20, fun x => pyTrunc (x / 20)))),
    ("AX25 Prewave time", .masknum 0xEA0 0xFF
      (some (fun x => x * 10, fun x => pyTrunc (x / 10)))),
    ("AX25 Your Callsign", .str 0xEAB 6),
    ("AX25 Your SSID", .num 0xEA4 1),
    ("AX25 Dest Callsign", .str 0xEA5 6),
    ("AX25 Dest SSID", .num 0xEA3 1),
    ("AX25 APRS Symbol Table", .num 0xEB1 1),
    ("AX25 APRS Map Icon", .num 0xEB2 1),
    ("AX25 APRS Signal Path", .str 0xEB3 20),
    ("AX25 Your Sending Text", .str 0xEC7 61) ]

def aprs_dmr_record_parameters : List (String × FieldDef) :=
  [ ("Zone ID", .num 0x00 2),
    ("Channel ID", .num 0x02 2),
    ("Call Type", .bitmask 0x07 0x04 [(0x00, "PRIVATE"), (0x04, "GROUP")]),
    ("PTT", .bitmask 0x07 0x08 [(0x00, "OFF"), (0x08, "ON")]),
    ("Report Slot", .bitmask 0x07 0x03 [(0x00, "CURRENT"), (0x01, "TS1"), (0x02, "TS2")]),
    ("APRS TG", .num 0x04 3) ]

def contact_parameters : List (String × FieldDef) :=
  [ ("ID", .num 0x00 2),
    ("Name", .str 0x03 10),
    ("DMR ID", .num 0x0D 3),
    ("Type", .bitmask 0x02 0xFF
      [(0x04, "Group"), (0x05, "Private"), (0x06, "All Call"), (0x07, "No-Address Call"),
       (0x08, "RawData"), (0x09, "Define Data"), (0x0A, "SPDATA")]) ]

def scan_list_info : List (String × FieldDef) :=
  [ ("Name", .str 0x00 10),
    ("Talkback", .bitmask 0x0B 0x20 [(0x00, "Off"), (0x20, "On")]),
    ("Scan TX Mode", .bitmask 0x0B 0x0F
      [(0x00, "Current Channel"), (0x04, "Last Operated Channel"), (0x08, "Appointed Channel")]),
    ("Appointed channel group ID", .num 0x0C 2),
    ("Appointed channel channel ID", .num 0x0E 2) ]

def rx_group_info : List (String × FieldDef) :=
  [ ("Name", .str 0x00 10) ]

def zone_info : List (String × FieldDef) :=
  [ ("ID", .num 0x00 2),
    ("Name", .str 0x03 10) ]

def channel_info : List (String × FieldDef) :=
  [ ("ID", .num 0x00 2),
    ("Type", .bitmask 0x14 0xC0
      [(0x00, "ANALOG"), (0x40, "DIGITAL"), (0x80, "D_A_TX_A"), (0xC0, "D_A_TX_D")]),
    ("Name", .str 0x02 10),
    ("Rx Freq", .num 0x0C 4),
    ("Tx Freq", .num 0x10 4),
    ("Tx Power", .bitmask 0x14 0x20 [(0x00, "LOW"), (0x20, "HIGH")]),
    ("Rx only", .bitmask 0x19 0x10 [(0x00, "OFF"), (0x10, "ON")]),
    ("Alarm", .bitmask 0x14 0x08 [(0x00, "OFF"), (0x08, "ON")]),
    ("Prompt", .bitmask 0x14 0x08 [(0x00, "OFF"), (0x08, "ON")]),
    ("PCT", .bitmask 0x14 0x02 [(0x00, "PATCS"), (0x02, "OACSU")]),
    ("TS Rx", .bitmask 0x14 0x01 [(0x00, "TS1"), (0x01, "TS2")]),
    ("TS Tx", .bitmask 0x1D 0x02 [(0x00, "TS1"), (0x02, "TS2")]),
    ("RX CC", .masknum 0x15 0x0F none),
    ("TX CC", .masknum 0x1D 0xF0 (some (fun x => pyShr x 4, fun x => pyShl x 4))),
    ("MSG Type", .bitmask 0x15 0x10 [(0x00, "UNCONFIRMED"), (0x10, "CONFIRMED")]),
    ("TX Policy", .bitmask 0x15 0xC0
      [(0x00, "IMPOLITE"), (0x40, "POLITE_TO_CC"), (0x60, "POLITE_TO_ALL")]),
    ("Group call list", .num 0x17 1),
    ("Scan List ID", .num 0x18 1),
    ("Default Contact ID", .num 0x1E 1),
    ("EAS", .bitmask 0x19 0x0F
      [(0x00, "OFF"), (0x01, "A1"), (0x02, "A2"), (0x03, "A3"), (0x04, "A4")]),
    ("Bandwidth", .bitmask 0x14 0x10 [(0x10, "25KHz"), (0x00, "12.5KHz")]),
    ("Tone Type Tx", .bitmask 0x1A 0x0C
      [(0x00, "OFF"), (0x04, "CTCSS"), (0x08, "DCS"), (0x0C, "DCS Invert")]),
    ("Tone Tx", .num 0x1C 1),
    ("Tone Type Rx", .bitmask 0x1A 0x03
      [(0x00, "OFF"), (0x01, "CTCSS"), (0x02, "DCS"), (0x03, "DCS Invert")]),
    ("Tone Rx", .num 0x1B 1),
    ("APRS Channel", .masknum 0x1F 0xF0 (some (fun x => pyShr x 4, fun x => pyShl x 4))) ]

/-- The two extra active-low "timeslot forced on" flag bits of a channel
record (`0x00` means ON, the nonzero mask bit means OFF). -/
def tson_info : List (String × FieldDef) :=
  [ ("TS Rx ON", .bitmask 0x1D 0x01 [(0x00, "ON"), (0x01, "OFF")]),
    ("TS Tx ON", .bitmask 0x1D 0x04 [(0x00, "ON"), (0x04, "OFF")]) ]

/-! Layout planner arithmetic. -/

/-- Contact block size before the parity fix-up: `num_contacts * 16`, padded
up to the next multiple of 1024 when not already aligned (identical in
`decompileCodeplug` and `compileCodeplug`). -/
def contactBlockSizePadded (num_contacts : Nat) : Nat :=
  let s := num_contacts * contact_record_size
  if s % 1024 ≠ 0 then s + (1024 - s % 1024) else s

/-- Final contact block size: one more 1024-byte block is added when the
padded block occupies an even number of 1024-byte units. -/
def contactBlockSize (num_contacts : Nat) : Nat :=
  let s := contactBlockSizePadded num_contacts
  if s / 1024 % 2 = 0 then s + 1024 else s

/-- Zone start address as computed by `decompileCodeplug`: contacts end,
re-aligned up to a 1K boundary when needed. -/
def zoneStartAddressDecompile (num_contacts : Nat) : Nat :=
  let z := contact_start_address + contactBlockSize num_contacts
  if z % 1024 ≠ 0 then z + (1024 - z % 1024) else z

/-- Zone start address as computed by `compileCodeplug` (no re-alignment
step). -/
def zoneStartAddressCompile (num_contacts : Nat) : Nat :=
  contact_start_address + contactBlockSize num_contacts

/-- Physical start address of logical quick-message index `i`: block 1
(15 records at 0xFAE) then block 2 (85 records at the lower address 0x12B).
This split rule appears identically in `decompileCodeplug` and
`compileCodeplug`. -/
def messageStartAddress (i : Nat) : Nat :=
  if i < message_block_1_count then
    message_block_1_start_addr + i * message_record_size
  else
    message_block_2_start_addr + (i - message_block_1_count) * message_record_size

/-! Tone resolution. -/

/-- `str(x)` for the CTCSS table floats: every entry is an exact
one-decimal-place value and Python prints it with one digit after the
point. -/
def pyFloatStr (x : ℚ) : String :=
  let n := (x * 10).floor.toNat
  toString (n / 10) ++ "." ++ toString (n % 10)

/-- Python list subscription with a document value as index: a string index
raises `TypeError`, a number indexes the list. -/
def pyValueGetQ (l : List ℚ) (v : Value) : Except Err ℚ :=
  match v with
  | .s _ => .error .typeError
  | .q i => pyListGet l i

/-- As `pyValueGetQ`, for a table of ints. -/
def pyValueGetN (l : List Nat) (v : Value) : Except Err Nat :=
  match v with
  | .s _ => .error .typeError
  | .q i => pyListGet l i

/-- `l.index(v)` over a table of ints, compared against a document value. -/
def pyListIndexNat (l : List Nat) (v : Value) : Except Err Nat :=
  match l.findIdx? (fun x => Value.q (x : ℚ) = v) with
  | some i => .ok i
  | none => .error .valueError

/-- Decode-side resolution of the APRS `AX25 QT/DQT` field
(decompileCodeplug lines 571-578): ranges 159-267 resolve as inverted DCS,
52-158 as normal DCS (`D<code>N`), 1-51 as a CTCSS frequency string,
anything else as `"Off"`. -/
def aprsQtDqtResolve (v : ℚ) : Except Err Value :=
  if 159 ≤ v ∧ v ≤ 267 then do
    let c ← pyListGet DCS_Codes (v - 160)
    pure (.s ("D" ++ zfill (toString c) 3 ++ "I"))
  else if 52 ≤ v ∧ v ≤ 158 then do
    let c ← pyListGet DCS_Codes (v - 53)
    pure (.s ("D" ++ zfill (toString c) 3 ++ "N"))
  else if 1 ≤ v ∧ v ≤ 51 then do
    let t ← pyListGet CTCSS_Tones v
    pure (.s (pyFloatStr t))
  else pure (.s "Off")

/-- Encode-side resolution of the APRS `AX25 QT/DQT` field
(compileCodeplug lines 789-796): `"Off"` encodes as 0; a string ending in
`I` / `N` is parsed as a DCS code and encoded as table index + 160 / + 53;
anything else is looked up in the CTCSS table.  A numeric document value
reaches `.endswith` and raises `AttributeError`. -/
def aprsQtDqtEncode (v : Value) : Except Err Value :=
  if v = .s "Off" then pure (.q 0)
  else
    match v with
    | .q _ => .error .attrError
    | .s st =>
      if pyEndsWith st 'I' then do
        let c ← pyParseInt (pyRemoveChar (pyRemoveChar st 'D') 'I')
        let i ← pyListIndexNat DCS_Codes (.q (c : ℚ))
        pure (.q ((i : ℚ) + 160))
      else if pyEndsWith st 'N' then do
        let c ← pyParseInt (pyRemoveChar (pyRemoveChar st 'D') 'N')
        let i ← pyListIndexNat DCS_Codes (.q (c : ℚ))
        pure (.q ((i : ℚ) + 53))
      else do
        let i ← pyListIndex CTCSS_Tones (.s st)
        pure (.q (i : ℚ))

/-- Decode-side channel tone resolution (decompileCodeplug lines 710-719):
with tone type CTCSS the parsed index is swapped for the CTCSS table entry;
with any other non-OFF type (DCS or DCS Invert) for the DCS table entry;
with type OFF the parsed value is left as is. -/
def resolveTone (ty raw : Value) : Except Err Value :=
  if ty = .s "CTCSS" then do
    let t ← pyValueGetQ CTCSS_Tones raw
    pure (.q t)
  else if ty ≠ .s "OFF" then do
    let c ← pyValueGetN DCS_Codes raw
    pure (.q (c : ℚ))
  else pure raw

/-- Dict assignment `r[k] = v` for a key already present in the record. -/
def setKey (r : List (String × Value)) (k : String) (v : Value) :
    List (String × Value) :=
  r.map (fun p => if p.1 = k then (p.1, v) else p)

/-! Document shape. -/

/-- A decoded scan list: its fixed fields plus the compacted list of
(group id, channel id) pairs. -/
structure ScanRec where
  fields : List (String × Value)
  selected : List (Value × Value)
deriving DecidableEq, Repr

/-- A decoded RX group: its name field plus the compacted contact-id list. -/
structure RxGroupRec where
  fields : List (String × Value)
  contacts : List Value
deriving DecidableEq, Repr

/-- A decoded zone: its fixed fields plus its channels. -/
structure ZoneRec where
  fields : List (String × Value)
  channels : List (List (String × Value))
deriving DecidableEq, Repr

/-- The full structured codeplug document. -/
structure Codeplug where
  deviceInfo : List (String × Value)
  basicParameters : List (String × Value)
  commonMenuParameters : List (String × Value)
  promptTone : List (String × Value)
  indicators : List (String × Value)
  presetButtons : List (String × Value)
  micGain : List (String × Value)
  aprs : List (String × Value)
  aprsDmrChannels : List (List (String × Value))
  dmrService : List (String × Value)
  quickMessages : List String
  contacts : List (List (String × Value))
  scanLists : List ScanRec
  rxGroups : List RxGroupRec
  zones : List ZoneRec
deriving DecidableEq, Repr

/-! Decompilation (image → document). -/

/-- Quick-message decode loop (decompileCodeplug lines 591-604), faithful to
the Python scoping: on an ASCII decode failure `msg_str` keeps the value it
had from the previous iteration (the record is *not* skipped — the previous
message is appended again when non-empty), and a failure on the very first
iteration leaves `msg_str` unbound (`NameError`). -/
def decodeQuickMessages (data : PyBytes) : Except Err (List String) := do
  let step := fun (st : Option String × List String) (i : Nat) => do
    let start_of_message := messageStartAddress i
    let msgStr : Option String :=
      match decodeAsciiRstrip
          (data.slice start_of_message (start_of_message + message_record_size)) with
      | .ok s => some s
      | .error _ => st.1
    match msgStr with
    | none => (.error .nameError : Except Err (Option String × List String))
    | some s => pure (some s, if s ≠ "" then st.2 ++ [s] else st.2)
  let r ← (List.range (message_block_1_count + message_block_2_count)).foldlM step
    (none, [])
  pure r.2

/-- Per-channel decode (the body of the channel loop of `decompileCodeplug`,
lines 680-721): generic field decode, then the timeslot forced-on fix-up,
then tone resolution. -/
def decompileChannel (channel_data : PyBytes) :
    Except Err (List (String × Value)) := do
  let channel ← fromBytes channel_info channel_data
  let tempTSON ← fromBytes tson_info channel_data
  let some rxf := channel.lookup "Rx Freq" | .error .keyError
  let some txf := channel.lookup "Tx Freq" | .error .keyError
  let tempTSON :=
    if rxf ≠ txf then
      setKey (setKey tempTSON "TS Rx ON" (.s "OFF")) "TS Tx ON" (.s "OFF")
    else tempTSON
  let channel :=
    if tempTSON.lookup "TS Rx ON" = some (.s "ON") then
      setKey channel "TS Rx" (.s "ON")
    else channel
  let channel :=
    if tempTSON.lookup "TS Tx ON" = some (.s "ON") then
      setKey channel "TS Tx" (.s "ON")
    else channel
  let some tyTx := channel.lookup "Tone Type Tx" | .error .keyError
  let some rawTx := channel.lookup "Tone Tx" | .error .keyError
  let vTx ← resolveTone tyTx rawTx
  let channel := setKey channel "Tone Tx" vTx
  let some tyRx := channel.lookup "Tone Type Rx" | .error .keyError
  let some rawRx := channel.lookup "Tone Rx" | .error .keyError
  let vRx ← resolveTone tyRx rawRx
  let channel := setKey channel "Tone Rx" vRx
  pure channel

/-- Scan-list decode loop (decompileCodeplug lines 622-640): 250 slots are
scanned; a record is kept only when its name is non-empty, and only pairs
with both halves non-zero are retained, order-preserving. -/
def decodeScanLists (data : PyBytes) : Except Err (List ScanRec) :=
  (List.range 250).foldlM (fun acc i => do
    let record_start_addr := scan_list_start_address + i * scan_list_record_size
    let record ← fromBytes scan_list_info
      (data.sub record_start_addr (record_start_addr + scan_list_record_size))
    if record.lookup "Name" ≠ some (.s "") then
      let pairs := (List.range 50).foldl (fun ps j =>
        let group := fromBytesLE
          (data.slice (record_start_addr + 16 + j * 4) (record_start_addr + 16 + j * 4 + 2))
        let channel := fromBytesLE
          (data.slice (record_start_addr + 16 + j * 4 + 2) (record_start_addr + 16 + j * 4 + 4))
        if group ≠ 0 ∧ channel ≠ 0 then ps ++ [(Value.q group, Value.q channel)] else ps) []
      pure (acc ++ [ScanRec.mk record pairs])
    else pure acc) []

/-- RX-group decode loop (decompileCodeplug lines 646-657): 250 slots; the
100 2-byte contact ids use 0 as the absent sentinel; a record is kept when
it has a name or at least one contact. -/
def decodeRxGroups (data : PyBytes) : Except Err (List RxGroupRec) :=
  (List.range 250).foldlM (fun acc i => do
    let record ← fromBytes rx_group_info
      (data.sub (rx_group_start_address + i * rx_group_record_size)
        (rx_group_start_address + (i + 1) * rx_group_record_size))
    let contacts := (List.range 100).foldl (fun cs j =>
      let id := fromBytesLE
        (data.slice (rx_group_start_address + i * rx_group_record_size + 10 + j * 2)
          (rx_group_start_address + i * rx_group_record_size + 10 + j * 2 + 2))
      if id ≠ 0 then cs ++ [Value.q id] else cs) []
    if record.lookup "Name" ≠ some (.s "") ∨ contacts ≠ [] then
      pure (acc ++ [RxGroupRec.mk record contacts])
    else pure acc) []

/-- Zone/channel decode loop (decompileCodeplug lines 664-724): each zone
record carries a 1-based channel-slot offset and a channel count; the
channels are read from the shared channel region at
`zone_start_address + (offset - 1) * 32`. -/
def decodeZones (data : PyBytes) (zone_start_address num_zones : Nat) :
    Except Err (List ZoneRec) :=
  (List.range num_zones).mapM (fun i => do
    let zone_data := data.sub (zone_start_address + 32 * i) (zone_start_address + 32 * (i + 1))
    let parsed_zone ← fromBytes zone_info zone_data
    let num_channels := fromBytesLE (zone_data.slice 0x0F (0x0F + 2))
    let channels_offset := fromBytesLE (zone_data.slice 0x0D (0x0D + 2))
    let channels_offset : ℤ := ((channels_offset : ℤ) - 1) * 32
    let channels ← (List.range num_channels).mapM (fun j =>
      decompileChannel (data.subInt
        ((zone_start_address : ℤ) + channels_offset + 32 * (j : ℤ))
        ((zone_start_address : ℤ) + channels_offset + 32 * ((j : ℤ) + 1))))
    pure (ZoneRec.mk parsed_zone channels))

/-- `decompileCodeplug`: the full image → document decode. -/
def decompileCodeplug (data : PyBytes) : Except Err Codeplug := do
  let _num_channels := fromBytesLE
    (data.slice channel_count_address (channel_count_address + channel_count_len))
  let num_zones := fromBytesLE
    (data.slice zone_count_address (zone_count_address + zone_count_len))
  let num_contacts := fromBytesLE
    (data.slice contact_count_address (contact_count_address + contact_count_len))
  let zone_start_address := zoneStartAddressDecompile num_contacts
  let deviceInfo ← fromBytes dev_info data
  let basicP ← fromBytes basic_parameters data
  let commonP ← fromBytes common_menu_parameters data
  let promptP ← fromBytes prompt_tone_parameters data
  let indicatorsP ← fromBytes indicator_parameters data
  let buttonsP ← fromBytes button_preset_parameters data
  let micP ← fromBytes mic_gain_parameters data
  let aprsP ← fromBytes aprs_parameters data
  let some qt := aprsP.lookup "AX25 QT/DQT" | .error .keyError
  let qv ← match qt with
    | .q x => aprsQtDqtResolve x
    | .s _ => .error .typeError
  let aprsP := setKey aprsP "AX25 QT/DQT" qv
  let aprsDmr ← (List.range 8).mapM (fun i =>
    fromBytes aprs_dmr_record_parameters
      (data.sub (aprs_dmr_channel_start_address + i * 8)
        (aprs_dmr_channel_start_address + (i + 1) * 8)))
  let dmrP ← fromBytes dmr_parameters data
  let msgs ← decodeQuickMessages data
  let contacts ← (List.range num_contacts).mapM (fun i =>
    fromBytes contact_parameters
      (data.sub (contact_start_address + i * contact_record_size)
        (contact_start_address + (i + 1) * contact_record_size)))
  let scans ← decodeScanLists data
  let rxgs ← decodeRxGroups data
  let zones ← decodeZones data zone_start_address num_zones
  pure (Codeplug.mk deviceInfo basicP commonP promptP indicatorsP buttonsP micP
    aprsP aprsDmr dmrP msgs contacts scans rxgs zones)

/-! Compilation (document → image). -/

/-- Total channel count: the sum over the zones. -/
def numChannelsOf (zones : List ZoneRec) : Nat := (zones.map (·.channels.length)).sum

/-- The planned image size (`codeplug_size` in `compileCodeplug`): channel
block end, padded up to a whole number of 2048-byte transfer blocks. -/
def plannedCodeplugSize (codeplug : Codeplug) : Nat :=
  let num_zones := codeplug.zones.length
  let num_channels := numChannelsOf codeplug.zones
  let zone_start_address := zoneStartAddressCompile codeplug.contacts.length
  let channel_start_address := zone_start_address + 32 * num_zones
  let s := channel_start_address + num_channels * channel_record_size
  if s % 2048 ≠ 0 then s + (2048 - s % 2048) else s

/-- `v.to_bytes(len, 'little')` for a document value (a string raises
`AttributeError`). -/
def valueToBytes (v : Value) (len : Nat) : Except Err (List Nat) :=
  match v with
  | .q x => pyToBytes x len
  | .s _ => .error .attrError

/-- Encode-side tone conversion of one channel tone pair (compileCodeplug
lines 886-894): swap the table value back to its index. -/
def convertToneKey (channel : List (String × Value)) (tyKey valKey : String) :
    Except Err (List (String × Value)) := do
  let some ty := channel.lookup tyKey | .error .keyError
  if ty = .s "CTCSS" then do
    let some v := channel.lookup valKey | .error .keyError
    let i ← pyListIndex CTCSS_Tones v
    pure (setKey channel valKey (.q (i : ℚ)))
  else if ty ≠ .s "OFF" then do
    let some v := channel.lookup valKey | .error .keyError
    let i ← pyListIndexNat DCS_Codes v
    pure (setKey channel valKey (.q (i : ℚ)))
  else pure channel

/-- Per-channel encode (the body of the channel loop of `compileCodeplug`,
lines 883-921): tone conversion, then the timeslot forced-on derivation
(first the non-simplex force-off, *then* the ON-sentinel override), then the
generic field encode of `channel_info` followed by `tson_info` into a fresh
32-byte record. -/
def compileChannel (channel : List (String × Value)) : Except Err PyBytes := do
  let channel ← convertToneKey channel "Tone Type Tx" "Tone Tx"
  let channel ← convertToneKey channel "Tone Type Rx" "Tone Rx"
  let tempRx := "OFF"
  let tempTx := "OFF"
  let some rxf := channel.lookup "Rx Freq" | .error .keyError
  let some txf := channel.lookup "Tx Freq" | .error .keyError
  let tempRx := if rxf ≠ txf then "OFF" else tempRx
  let tempTx := if rxf ≠ txf then "OFF" else tempTx
  let some tsr := channel.lookup "TS Rx" | .error .keyError
  let tempRx := if tsr = .s "ON" then "ON" else tempRx
  let some tst := channel.lookup "TS Tx" | .error .keyError
  let tempTx := if tst = .s "ON" then "ON" else tempTx
  let channel_record := PyBytes.zeros channel_record_size
  let channel_record ← toBytes channel_record channel_info channel
  let channel_record ← toBytes channel_record tson_info
    [("TS Rx ON", .s tempRx), ("TS Tx ON", .s tempTx)]
  pure channel_record

/-- Everything `compileCodeplug` does before its final size check. -/
def compileBody (codeplug : Codeplug) : Except Err PyBytes := do
  let num_contacts := codeplug.contacts.length
  let num_zones := codeplug.zones.length
  let num_channels := numChannelsOf codeplug.zones
  let zone_start_address := zoneStartAddressCompile num_contacts
  let channel_start_address := zone_start_address + 32 * num_zones
  let codeplug_size := plannedCodeplugSize codeplug
  let template := PyBytes.zeros codeplug_size
  let zb ← pyToBytes (num_zones : ℚ) 2
  let template := template.setSlice zone_count_address (zone_count_address + 2) zb
  let cb ← pyToBytes (num_contacts : ℚ) 2
  let template := template.setSlice contact_count_address (contact_count_address + 2) cb
  let chb ← pyToBytes (num_channels : ℚ) 2
  let template := template.setSlice channel_count_address (channel_count_address + 2) chb
  let template ← toBytes template dev_info codeplug.deviceInfo
  let template ← toBytes template basic_parameters codeplug.basicParameters
  let template ← toBytes template common_menu_parameters codeplug.commonMenuParameters
  let template ← toBytes template prompt_tone_parameters codeplug.promptTone
  let template ← toBytes template indicator_parameters codeplug.indicators
  let template ← toBytes template button_preset_parameters codeplug.presetButtons
  let template ← toBytes template mic_gain_parameters codeplug.micGain
  let template ← toBytes template dmr_parameters codeplug.dmrService
  let some qt := codeplug.aprs.lookup "AX25 QT/DQT" | .error .keyError
  let qv ← aprsQtDqtEncode qt
  let aprsP := setKey codeplug.aprs "AX25 QT/DQT" qv
  let template ← toBytes template aprs_parameters aprsP
  let tc1 ← codeplug.aprsDmrChannels.foldlM (fun (st : PyBytes × Nat) record => do
    let rec1 ← toBytes (PyBytes.zeros 8) aprs_dmr_record_parameters record
    pure (st.1.setSlice (aprs_dmr_channel_start_address + 8 * st.2)
      (aprs_dmr_channel_start_address + 8 * (st.2 + 1)) rec1.toList, st.2 + 1))
    (template, 0)
  let template := tc1.1
  let template ← (List.range codeplug.quickMessages.length).foldlM (fun tpl i => do
    let start_address := messageStartAddress i
    let encoded ← encodeAscii
      (String.mk ((codeplug.quickMessages.getD i "").data.take message_record_size))
    pure (tpl.setSlice start_address (start_address + encoded.length) encoded)) template
  let tc2 ← codeplug.contacts.foldlM (fun (st : PyBytes × Nat) contact => do
    let rec1 ← toBytes (PyBytes.zeros contact_record_size) contact_parameters contact
    pure (st.1.setSlice (contact_start_address + contact_record_size * st.2)
      (contact_start_address + contact_record_size * (st.2 + 1)) rec1.toList, st.2 + 1))
    (template, 0)
  let template := tc2.1
  let tc3 ← codeplug.scanLists.foldlM (fun (st : PyBytes × Nat) scan_list => do
    let rec1 ← toBytes (PyBytes.zeros scan_list_record_size) scan_list_info scan_list.fields
    let rec2 ← (List.range scan_list.selected.length).foldlM (fun r i => do
      let pair := scan_list.selected.getD i (Value.q 0, Value.q 0)
      let gb ← valueToBytes pair.1 2
      let r := r.setSlice (16 + i * 4) (16 + i * 4 + 2) gb
      let cb2 ← valueToBytes pair.2 2
      pure (r.setSlice (16 + i * 4 + 2) (16 + i * 4 + 4) cb2)) rec1
    pure (st.1.setSlice (scan_list_start_address + scan_list_record_size * st.2)
      (scan_list_start_address + scan_list_record_size * (st.2 + 1)) rec2.toList, st.2 + 1))
    (template, 0)
  let template := tc3.1
  let tc4 ← codeplug.rxGroups.foldlM (fun (st : PyBytes × Nat) group => do
    let rec1 ← toBytes (PyBytes.zeros rx_group_record_size) rx_group_info group.fields
    let rec2 ← (List.range group.contacts.length).foldlM (fun r i => do
      let idb ← valueToBytes (group.contacts.getD i (Value.q 0)) 2
      pure (r.setSlice (10 + i * 2) (10 + (i + 1) * 2) idb)) rec1
    pure (st.1.setSlice (rx_group_start_address + rx_group_record_size * st.2)
      (rx_group_start_address + rx_group_record_size * (st.2 + 1)) rec2.toList, st.2 + 1))
    (template, 0)
  let template := tc4.1
  let tc5 ← codeplug.zones.foldlM (fun (st : PyBytes × Nat) zone => do
    let channel_offset := codeplug.zones.length + 1 +
      ((codeplug.zones.take st.2).map (·.channels.length)).sum
    let rec1 ← toBytes (PyBytes.zeros zone_record_size) zone_info zone.fields
    let ob ← pyToBytes (channel_offset : ℚ) 2
    let rec1 := rec1.setSlice 0x0D (0x0D + 2) ob
    let cb3 ← pyToBytes (zone.channels.length : ℚ) 2
    let rec1 := rec1.setSlice 0x0F (0x0F + 2) cb3
    pure (st.1.setSlice (zone_start_address + zone_record_size * st.2)
      (zone_start_address + zone_record_size * (st.2 + 1)) rec1.toList, st.2 + 1))
    (template, 0)
  let template := tc5.1
  let tc6 ← codeplug.zones.foldlM (fun acc zone =>
    zone.channels.foldlM (fun (st : PyBytes × Nat) channel => do
      let channel_record ← compileChannel channel
      pure (st.1.setSlice (channel_start_address + channel_record_size * st.2)
        (channel_start_address + channel_record_size * (st.2 + 1))
        channel_record.toList, st.2 + 1)) acc)
    (template, 0)
  pure tc6.1

/-- `compileCodeplug`: the full document → image encode, with the final
size verification (a mismatch is fatal, `sys.exit(4)`). -/
def compileCodeplug (codeplug : Codeplug) : Except Err PyBytes := do
  let template ← compileBody codeplug
  if template.size ≠ plannedCodeplugSize codeplug then .error .sizeMismatch
  else pure template

/-! Concrete documents, records and images used by the theorems below. -/

/-- A neutral value for a field: the empty string for String fields,
zero for everything else. -/
def defaultFor (d : FieldDef) : Value :=
  match d with
  | .str _ _ => .s ""
  | _ => .q 0

/-- A record holding every key of a schema table at its neutral value. -/
def defaultsOf (defs : List (String × FieldDef)) : List (String × Value) :=
  defs.map (fun p => (p.1, defaultFor p.2))

/-- A minimal but complete document: every singleton section present with
neutral values, `AX25 QT/DQT` set to the `"Off"` sentinel, all collections
empty. -/
def docMinimal : Codeplug :=
  { deviceInfo := defaultsOf dev_info
    basicParameters := defaultsOf basic_parameters
    commonMenuParameters := defaultsOf common_menu_parameters
    promptTone := defaultsOf prompt_tone_parameters
    indicators := defaultsOf indicator_parameters
    presetButtons := defaultsOf button_preset_parameters
    micGain := defaultsOf mic_gain_parameters
    aprs := setKey (defaultsOf aprs_parameters) "AX25 QT/DQT" (.s "Off")
    aprsDmrChannels := []
    dmrService := defaultsOf dmr_parameters
    quickMessages := []
    contacts := []
    scanLists := []
    rxGroups := []
    zones := [] }

/-- A valid simplex channel whose `Alarm` is ON but whose `Prompt` is OFF —
two document fields that the schema maps to the *same* stored bit
(byte 0x14, mask 0x08). -/
def chAlarmPrompt : List (String × Value) :=
  [ ("ID", .q 1), ("Type", .s "DIGITAL"), ("Name", .s "CH1"),
    ("Rx Freq", .q 43950000), ("Tx Freq", .q 43950000),
    ("Tx Power", .s "HIGH"), ("Rx only", .s "OFF"),
    ("Alarm", .s "ON"), ("Prompt", .s "OFF"), ("PCT", .s "PATCS"),
    ("TS Rx", .s "TS1"), ("TS Tx", .s "TS1"),
    ("RX CC", .q 1), ("TX CC", .q 1),
    ("MSG Type", .s "UNCONFIRMED"), ("TX Policy", .s "IMPOLITE"),
    ("Group call list", .q 0), ("Scan List ID", .q 0),
    ("Default Contact ID", .q 1), ("EAS", .s "OFF"),
    ("Bandwidth", .s "12.5KHz"),
    ("Tone Type Tx", .s "OFF"), ("Tone Tx", .q 0),
    ("Tone Type Rx", .s "OFF"), ("Tone Rx", .q 0),
    ("APRS Channel", .q 0) ]

/-- The minimal document extended with one zone holding `chAlarmPrompt`. -/
def docAlarmPrompt : Codeplug :=
  { docMinimal with zones := [ZoneRec.mk (defaultsOf zone_info) [chAlarmPrompt]] }

/-- A non-simplex channel (Rx and Tx frequencies differ) whose nominal
`TS Rx` field carries the `"ON"` sentinel. -/
def chNonSimplexOn : List (String × Value) :=
  [ ("ID", .q 1), ("Type", .s "DIGITAL"), ("Name", .s "CH2"),
    ("Rx Freq", .q 43950000), ("Tx Freq", .q 43850000),
    ("Tx Power", .s "HIGH"), ("Rx only", .s "OFF"),
    ("Alarm", .s "OFF"), ("Prompt", .s "OFF"), ("PCT", .s "PATCS"),
    ("TS Rx", .s "ON"), ("TS Tx", .s "TS2"),
    ("RX CC", .q 1), ("TX CC", .q 1),
    ("MSG Type", .s "UNCONFIRMED"), ("TX Policy", .s "IMPOLITE"),
    ("Group call list", .q 0), ("Scan List ID", .q 0),
    ("Default Contact ID", .q 1), ("EAS", .s "OFF"),
    ("Bandwidth", .s "12.5KHz"),
    ("Tone Type Tx", .s "OFF"), ("Tone Tx", .q 0),
    ("Tone Type Rx", .s "OFF"), ("Tone Rx", .q 0),
    ("APRS Channel", .q 0) ]

/-- A raw 32-byte channel record whose `Tone Type Rx` bits (byte 0x1A,
mask 0x03) hold 0x02 = DCS, with raw tone index 0. -/
def recToneDCS : PyBytes :=
  PyBytes.ofList ((List.range 32).map (fun i => if i = 0x1A then 0x02 else 0))

/-- A raw 32-byte channel record with differing frequencies (Rx 1, Tx 2)
and both forced-on flag bits in the ON state (byte 0x1D = 0). -/
def recNonSimplex : PyBytes :=
  PyBytes.ofList ((List.range 32).map (fun i =>
    if i = 0x0C then 1 else if i = 0x10 then 2 else 0))

/-- The decoded form of `recNonSimplex` (checked against
`decompileChannel` by `decide` in the proofs below). -/
def recNonSimplexDecoded : List (String × Value) :=
  [ ("ID", .q 0), ("Type", .s "ANALOG"), ("Name", .s ""),
    ("Rx Freq", .q 1), ("Tx Freq", .q 2),
    ("Tx Power", .s "LOW"), ("Rx only", .s "OFF"),
    ("Alarm", .s "OFF"), ("Prompt", .s "OFF"), ("PCT", .s "PATCS"),
    ("TS Rx", .s "TS1"), ("TS Tx", .s "TS1"),
    ("RX CC", .q 0), ("TX CC", .q 0),
    ("MSG Type", .s "UNCONFIRMED"), ("TX Policy", .s "IMPOLITE"),
    ("Group call list", .q 0), ("Scan List ID", .q 0),
    ("Default Contact ID", .q 0), ("EAS", .s "OFF"),
    ("Bandwidth", .s "12.5KHz"),
    ("Tone Type Tx", .s "OFF"), ("Tone Tx", .q 0),
    ("Tone Type Rx", .s "OFF"), ("Tone Rx", .q 0),
    ("APRS Channel", .q 0) ]

/-- A raw 32-byte simplex channel record (equal frequencies) with both
forced-on flag bits in the ON state (byte 0x1D = 0). -/
def recSimplexOn : PyBytes :=
  PyBytes.ofList ((List.range 32).map (fun i =>
    if i = 0x0C then 1 else if i = 0x10 then 1 else 0))

/-- An image whose quick-message record 0 reads "AB" and whose record 1
starts with the non-ASCII byte 0xC8. -/
def imgMsgCorrupt : PyBytes :=
  ⟨0x2000, fun i =>
    if i = 0xFAE then 65 else if i = 0xFAF then 66 else
    if i = 0xFD6 then 200 else 0⟩

/-- An image whose very first quick-message record already fails ASCII
decoding. -/
def imgMsgCorruptFirst : PyBytes := ⟨0x2000, fun i => if i = 0xFAE then 200 else 0⟩

/-- A prompt-tone record whose `SMS Prompt` MaskNum value 31 exceeds the
field's 0x0F mask range. -/
def itemSmsPromptBig : List (String × Value) :=
  setKey (defaultsOf prompt_tone_parameters) "SMS Prompt" (.q 31)

/-- A contact whose 3-byte `DMR ID` value does not fit its width. -/
def itemContactBig : List (String × Value) :=
  setKey (defaultsOf contact_parameters) "DMR ID" (.q (256 ^ 3))

theorem exceptToOption_some {α : Type} {x : Except Err α} {a : α}
    (h : x.toOption = some a) : x = .ok a := by
  cases x with
  | ok b => simp [Except.toOption] at h; rw [h]
  | error e => simp [Except.toOption] at h

theorem except_bind_ok {α β : Type} {x : Except Err α} {f : α → Except Err β} {r : β} :
    x >>= f = .ok r ↔ ∃ a, x = .ok a ∧ f a = .ok r := by
  cases x with
  | ok a => simp [Bind.bind, Except.bind]
  | error e => simp [Bind.bind, Except.bind]

theorem except_pure_ok {α : Type} {a b : α} : (pure a : Except Err α) = .ok b ↔ a = b := by
  constructor
  · intro h; cases h; rfl
  · intro h; rw [h]; rfl

theorem fromBytes_ok_lookup {defs : List (String × FieldDef)} {b : PyBytes}
    {r : List (String × Value)} (h : fromBytes defs b = .ok r)
    {k : String} {d : FieldDef} (hd : defs.lookup k = some d) :
    ∃ v, readField d b = .ok v ∧ r.lookup k = some v := by
  induction defs generalizing r with
  | nil => simp [List.lookup] at hd
  | cons p rest ih =>
    rw [fromBytes, List.mapM_cons] at h
    obtain ⟨pv, hpv, h2⟩ := except_bind_ok.mp h
    obtain ⟨rs, hrs, h3⟩ := except_bind_ok.mp h2
    obtain ⟨v0, hv0, h4⟩ := except_bind_ok.mp hpv
    rw [except_pure_ok] at h3 h4
    subst h3; subst h4
    rw [List.lookup] at hd
    by_cases hk : k = p.1
    · have hbeq : (k == p.1) = true := beq_iff_eq.mpr hk
      simp only [hbeq] at hd
      cases hd
      exact ⟨v0, hv0, by simp [List.lookup, hbeq]⟩
    · have hbeq : (k == p.1) = false := beq_eq_false_iff_ne.mpr hk
      simp only [hbeq] at hd
      obtain ⟨v, hv, hl⟩ := ih (by rw [fromBytes]; exact hrs) hd
      refine ⟨v, hv, ?_⟩
      simpa [List.lookup, hbeq] using hl

theorem toBytes_invariant (P : PyBytes → Prop) {defs : List (String × FieldDef)}
    {item : List (String × Value)}
    (hstep : ∀ p, p ∈ defs → ∀ bb bb',
      writeField bb p.2 (item.lookup p.1) = .ok bb' → P bb → P bb') :
    ∀ {b out : PyBytes}, toBytes b defs item = .ok out → P b → P out := by
  induction defs with
  | nil =>
    intro b out h hP
    rw [toBytes, List.foldlM_nil, except_pure_ok] at h
    rw [← h]; exact hP
  | cons p rest ih =>
    intro b out h hP
    rw [toBytes, List.foldlM_cons] at h
    obtain ⟨b1, hb1, h2⟩ := except_bind_ok.mp h
    exact ih (fun q hq => hstep q (List.mem_cons_of_mem p hq))
      (by rw [toBytes]; exact h2)
      (hstep p (List.mem_cons_self p rest) b b1 hb1 hP)

theorem toBytes_ok_of_mem {defs : List (String × FieldDef)}
    {item : List (String × Value)} {b out : PyBytes}
    (h : toBytes b defs item = .ok out) :
    ∀ p ∈ defs, ∃ bb bb', writeField bb p.2 (item.lookup p.1) = .ok bb' := by
  induction defs generalizing b with
  | nil => intro p hp; simp at hp
  | cons q rest ih =>
    intro p hp
    rw [toBytes, List.foldlM_cons] at h
    obtain ⟨b1, hb1, h2⟩ := except_bind_ok.mp h
    rcases List.mem_cons.mp hp with hpq | hpr
    · subst hpq; exact ⟨b, b1, hb1⟩
    · exact ih (by rw [toBytes]; exact h2) p hpr

theorem orAt_ok {b : PyBytes} {i v : Nat} {b' : PyBytes} (h : b.orAt i v = .ok b') :
    i < b.size ∧ b'.size = b.size ∧
    (∀ j, b'.byte j = if j = i then b.byte i ||| v else b.byte j) := by
  rw [PyBytes.orAt] at h
  split at h
  · cases h; exact ⟨by assumption, rfl, fun j => rfl⟩
  · cases h

theorem set_ok {b : PyBytes} {i v : Nat} {b' : PyBytes} (h : b.set i v = .ok b') :
    i < b.size ∧ b'.size = b.size ∧
    (∀ j, b'.byte j = if j = i then v else b.byte j) := by
  rw [PyBytes.set] at h
  split at h
  · cases h; exact ⟨by assumption, rfl, fun j => rfl⟩
  · cases h

theorem setSlice_size_inrange {b : PyBytes} {i j : Nat} {x : List Nat}
    (hij : i ≤ j) (hj : j ≤ b.size) (hx : x.length = j - i) :
    (b.setSlice i j x).size = b.size := by
  simp only [PyBytes.setSlice]
  omega

theorem setSlice_byte_outside {b : PyBytes} {i j : Nat} {x : List Nat}
    (hij : i ≤ j) (hj : j ≤ b.size) (hx : x.length = j - i)
    {k : Nat} (hk : k < i ∨ j ≤ k) :
    (b.setSlice i j x).byte k = b.byte k := by
  have h1 : min i b.size = i := by omega
  have h2 : min (max j (min i b.size)) b.size = j := by omega
  simp only [PyBytes.setSlice, h1, h2]
  rcases hk with hk | hk
  · rw [if_pos hk]
  · rw [if_neg (by omega), if_neg (by omega)]
    congr 1
    omega

theorem lookup_setKey_ne (r : List (String × Value)) (k k' : String) (v : Value)
    (h : k' ≠ k) : (setKey r k v).lookup k' = r.lookup k' := by
  induction r with
  | nil => rfl
  | cons p rest ih =>
    simp only [setKey, List.map]
    by_cases hp : p.1 = k
    · rw [if_pos hp]
      simp only [List.lookup]
      have : (k' == p.1) = false := beq_eq_false_iff_ne.mpr (by rw [hp]; exact h)
      simp only [this]
      exact ih
    · rw [if_neg hp]
      simp only [List.lookup]
      cases hbk : k' == p.1
      · exact ih
      · rfl

theorem lookup_setKey_self (r : List (String × Value)) (k : String) (v w : Value)
    (h : r.lookup k = some w) : (setKey r k v).lookup k = some v := by
  induction r with
  | nil => simp [List.lookup] at h
  | cons p rest ih =>
    simp only [setKey, List.map]
    simp only [List.lookup] at h
    by_cases hp : k = p.1
    · rw [if_pos hp.symm]
      simp [List.lookup, beq_iff_eq.mpr hp]
    · have hbeq : (k == p.1) = false := beq_eq_false_iff_ne.mpr hp
      simp only [hbeq] at h
      by_cases hq : p.1 = k
      · exact absurd hq.symm hp
      · rw [if_neg hq]
        simp only [List.lookup, hbeq]
        exact ih h

theorem or_and_distrib (x y m : Nat) : (x ||| y) &&& m = (x &&& m) ||| (y &&& m) := by
  rw [Nat.and_comm, Nat.and_or_distrib_left, Nat.and_comm m x, Nat.and_comm m y]

-- C7 pieces
theorem writeField_num_big {bb bb' : PyBytes} {off len : Nat} {v : ℚ}
    (hbig : (256 : ℚ) ^ len ≤ v ∨ v < 0)
    (h : writeField bb (.num off len) (some (.q v)) = .ok bb') : False := by
  rw [writeField] at h
  obtain ⟨bs, hbs, h2⟩ := except_bind_ok.mp h
  rw [pyToBytes] at hbs
  split at hbs
  · cases hbs
  · split at hbs
    · cases hbs
    · split at hbs
      · rename_i hden hneg hlt
        have hden' : v.den = 1 := by omega
        have hnum : (v.num : ℚ) = v := by
          conv_rhs => rw [← Rat.num_div_den v]
          rw [hden']
          norm_num
        have h1 : v.num < ((256 ^ len : ℕ) : ℤ) := by omega
        have h0 : (0 : ℚ) ≤ v := by
          rw [← hnum]
          exact_mod_cast (by omega : (0 : ℤ) ≤ v.num)
        have hvlt : v < (256 : ℚ) ^ len := by
          rw [← hnum]
          calc (v.num : ℚ) < ((256 ^ len : ℕ) : ℚ) := by exact_mod_cast h1
            _ = (256 : ℚ) ^ len := by push_cast; ring
        rcases hbig with hbig | hbig
        · linarith
        · linarith
      · cases hbs

theorem and_pow_two_cases (x k : Nat) : x &&& 2 ^ k = 0 ∨ x &&& 2 ^ k = 2 ^ k := by
  have h := Nat.and_two_pow x k
  cases hx : x.testBit k <;> simp [hx] at h <;> omega

theorem and_one_cases (x : Nat) : x &&& 1 = 0 ∨ x &&& 1 = 1 := by
  have := Nat.and_one_is_mod x; omega

theorem and_two_cases (x : Nat) : x &&& 2 = 0 ∨ x &&& 2 = 2 := by
  simpa using and_pow_two_cases x 1

theorem and_four_cases (x : Nat) : x &&& 4 = 0 ∨ x &&& 4 = 4 := by
  simpa using and_pow_two_cases x 2

theorem get_ok {b : PyBytes} {i : Nat} {v : Nat} (h : b.get i = .ok v) :
    i < b.size ∧ v = b.byte i := by
  rw [PyBytes.get] at h
  split at h
  · cases h; exact ⟨by assumption, rfl⟩
  · cases h

theorem lookup_setKey_ne2 (k' k : String) (h : k' ≠ k) (r : List (String × Value))
    (v : Value) : (setKey r k v).lookup k' = r.lookup k' := lookup_setKey_ne r k k' v h

theorem readField_bit1 {b : PyBytes} {off : Nat} {lo hi : String} {v : Value}
    (h : readField (.bitmask off 1 [(0, lo), (1, hi)]) b = .ok v) :
    v = .s (if b.byte off &&& 1 = 0 then lo else hi) := by
  rw [readField] at h
  obtain ⟨byv, hby, h2⟩ := except_bind_ok.mp h
  obtain ⟨-, hby'⟩ := get_ok hby
  subst hby'
  rcases and_one_cases (b.byte off) with h0 | h0 <;> rw [h0] at h2 <;>
    simp [enumLookup, except_pure_ok] at h2 <;> simp [h0, h2]

theorem readField_bit2 {b : PyBytes} {off : Nat} {lo hi : String} {v : Value}
    (h : readField (.bitmask off 2 [(0, lo), (2, hi)]) b = .ok v) :
    v = .s (if b.byte off &&& 2 = 0 then lo else hi) := by
  rw [readField] at h
  obtain ⟨byv, hby, h2⟩ := except_bind_ok.mp h
  obtain ⟨-, hby'⟩ := get_ok hby
  subst hby'
  rcases and_two_cases (b.byte off) with h0 | h0 <;> rw [h0] at h2 <;>
    simp [enumLookup, except_pure_ok] at h2 <;> simp [h0, h2]

theorem readField_bit4 {b : PyBytes} {off : Nat} {lo hi : String} {v : Value}
    (h : readField (.bitmask off 4 [(0, lo), (4, hi)]) b = .ok v) :
    v = .s (if b.byte off &&& 4 = 0 then lo else hi) := by
  rw [readField] at h
  obtain ⟨byv, hby, h2⟩ := except_bind_ok.mp h
  obtain ⟨-, hby'⟩ := get_ok hby
  subst hby'
  rcases and_four_cases (b.byte off) with h0 | h0 <;> rw [h0] at h2 <;>
    simp [enumLookup, except_pure_ok] at h2 <;> simp [h0, h2]

/-- Claim C4: on decode, when a channel record's Rx and Tx frequencies differ,
the timeslot fields come from the plain timeslot bits (byte 0x14 bit 0x01 for
Rx, byte 0x1D bit 0x02 for Tx); when the frequencies are equal and the
forced-on flag bit of byte 0x1D (0x01 for Rx, 0x04 for Tx) is clear, the
timeslot field is replaced by the "ON" sentinel. -/
theorem C4_timeslot_decode (b : PyBytes) (ch : List (String × Value))
    (h : decompileChannel b = .ok ch) :
    (ch.lookup "Rx Freq" ≠ ch.lookup "Tx Freq" →
      ch.lookup "TS Rx" = some (.s (if b.byte 0x14 &&& 0x01 = 0 then "TS1" else "TS2")) ∧
      ch.lookup "TS Tx" = some (.s (if b.byte 0x1D &&& 0x02 = 0 then "TS1" else "TS2"))) ∧
    (ch.lookup "Rx Freq" = ch.lookup "Tx Freq" →
      (b.byte 0x1D &&& 0x01 = 0 → ch.lookup "TS Rx" = some (.s "ON")) ∧
      (b.byte 0x1D &&& 0x04 = 0 → ch.lookup "TS Tx" = some (.s "ON"))) := by
  unfold decompileChannel at h
  obtain ⟨base, hbase, h⟩ := except_bind_ok.mp h
  obtain ⟨ts0, hts0, h⟩ := except_bind_ok.mp h
  obtain ⟨vRx, hvRxr, hvRxl⟩ := fromBytes_ok_lookup hbase
    (k := "Rx Freq") (d := .num 0x0C 4) (by rfl)
  obtain ⟨vTx, hvTxr, hvTxl⟩ := fromBytes_ok_lookup hbase
    (k := "Tx Freq") (d := .num 0x10 4) (by rfl)
  obtain ⟨vTSr, hvTSrr, hvTSrl⟩ := fromBytes_ok_lookup hbase
    (k := "TS Rx") (d := .bitmask 0x14 0x01 [(0x00, "TS1"), (0x01, "TS2")]) (by rfl)
  obtain ⟨vTSt, hvTStr, hvTStl⟩ := fromBytes_ok_lookup hbase
    (k := "TS Tx") (d := .bitmask 0x1D 0x02 [(0x00, "TS1"), (0x02, "TS2")]) (by rfl)
  obtain ⟨vTTt, hvTTtr, hvTTtl⟩ := fromBytes_ok_lookup hbase
    (k := "Tone Type Tx")
    (d := .bitmask 0x1A 0x0C [(0x00, "OFF"), (0x04, "CTCSS"), (0x08, "DCS"), (0x0C, "DCS Invert")])
    (by rfl)
  obtain ⟨vTnT, hvTnTr, hvTnTl⟩ := fromBytes_ok_lookup hbase
    (k := "Tone Tx") (d := .num 0x1C 1) (by rfl)
  obtain ⟨vTTr, hvTTrr, hvTTrl⟩ := fromBytes_ok_lookup hbase
    (k := "Tone Type Rx")
    (d := .bitmask 0x1A 0x03 [(0x00, "OFF"), (0x01, "CTCSS"), (0x02, "DCS"), (0x03, "DCS Invert")])
    (by rfl)
  obtain ⟨vTnR, hvTnRr, hvTnRl⟩ := fromBytes_ok_lookup hbase
    (k := "Tone Rx") (d := .num 0x1B 1) (by rfl)
  obtain ⟨wR, hwRr, hwRl⟩ := fromBytes_ok_lookup hts0
    (k := "TS Rx ON") (d := .bitmask 0x1D 0x01 [(0x00, "ON"), (0x01, "OFF")]) (by rfl)
  obtain ⟨wT, hwTr, hwTl⟩ := fromBytes_ok_lookup hts0
    (k := "TS Tx ON") (d := .bitmask 0x1D 0x04 [(0x00, "ON"), (0x04, "OFF")]) (by rfl)
  have hwRval := readField_bit1 hwRr
  have hwTval := readField_bit4 hwTr
  have hvTSrval := readField_bit1 hvTSrr
  have hvTStval := readField_bit2 hvTStr
  simp only [hvRxl, hvTxl] at h
  by_cases hfr : vRx = vTx
  case neg =>
    rw [if_pos hfr] at h
    have hlkR : (setKey (setKey ts0 "TS Rx ON" (.s "OFF")) "TS Tx ON" (.s "OFF")).lookup
        "TS Rx ON" = some (.s "OFF") := by
      rw [lookup_setKey_ne2 "TS Rx ON" "TS Tx ON" (by decide)]
      exact lookup_setKey_self _ _ _ _ hwRl
    have hlkT : (setKey (setKey ts0 "TS Rx ON" (.s "OFF")) "TS Tx ON" (.s "OFF")).lookup
        "TS Tx ON" = some (.s "OFF") := by
      have hin : (setKey ts0 "TS Rx ON" (.s "OFF")).lookup "TS Tx ON" = some wT := by
        rw [lookup_setKey_ne2 "TS Tx ON" "TS Rx ON" (by decide)]
        exact hwTl
      exact lookup_setKey_self _ _ _ _ hin
    rw [hlkR, hlkT] at h
    simp only [if_neg (show ¬(some (Value.s "OFF") = some (Value.s "ON")) by decide)] at h
    simp only [hvTTtl, hvTnTl] at h
    obtain ⟨w1, hw1, h⟩ := except_bind_ok.mp h
    rw [lookup_setKey_ne2 "Tone Type Rx" "Tone Tx" (by decide), hvTTrl] at h
    rw [lookup_setKey_ne2 "Tone Rx" "Tone Tx" (by decide), hvTnRl] at h
    obtain ⟨w2, hw2, h⟩ := except_bind_ok.mp h
    rw [except_pure_ok] at h
    subst h
    constructor
    · intro hne
      rw [lookup_setKey_ne2 "TS Rx" "Tone Rx" (by decide),
        lookup_setKey_ne2 "TS Rx" "Tone Tx" (by decide), hvTSrl, hvTSrval,
        lookup_setKey_ne2 "TS Tx" "Tone Rx" (by decide),
        lookup_setKey_ne2 "TS Tx" "Tone Tx" (by decide), hvTStl, hvTStval]
      exact ⟨rfl, rfl⟩
    · intro heq
      rw [lookup_setKey_ne2 "Rx Freq" "Tone Rx" (by decide),
        lookup_setKey_ne2 "Rx Freq" "Tone Tx" (by decide), hvRxl,
        lookup_setKey_ne2 "Tx Freq" "Tone Rx" (by decide),
        lookup_setKey_ne2 "Tx Freq" "Tone Tx" (by decide), hvTxl] at heq
      exact absurd (Option.some.inj heq) hfr
  case pos =>
    rw [if_neg (show ¬(vRx ≠ vTx) by simp [hfr])] at h
    rw [hwRl, hwTl] at h
    rcases and_one_cases (b.byte 0x1D) with hb1 | hb1 <;>
      rcases and_four_cases (b.byte 0x1D) with hb4 | hb4
    · have hwRv : wR = .s "ON" := by rw [hwRval, hb1]; simp
      have hwTv : wT = .s "ON" := by rw [hwTval, hb4]; simp
      rw [hwRv, hwTv] at h
      simp only [show (some (Value.s "ON") = some (Value.s "ON")) = True by simp, if_true] at h
      rw [lookup_setKey_ne2 "Tone Type Tx" "TS Tx" (by decide),
        lookup_setKey_ne2 "Tone Type Tx" "TS Rx" (by decide), hvTTtl,
        lookup_setKey_ne2 "Tone Tx" "TS Tx" (by decide),
        lookup_setKey_ne2 "Tone Tx" "TS Rx" (by decide), hvTnTl] at h
      obtain ⟨w1, hw1, h⟩ := except_bind_ok.mp h
      rw [lookup_setKey_ne2 "Tone Type Rx" "Tone Tx" (by decide),
        lookup_setKey_ne2 "Tone Type Rx" "TS Tx" (by decide),
        lookup_setKey_ne2 "Tone Type Rx" "TS Rx" (by decide), hvTTrl,
        lookup_setKey_ne2 "Tone Rx" "Tone Tx" (by decide),
        lookup_setKey_ne2 "Tone Rx" "TS Tx" (by decide),
        lookup_setKey_ne2 "Tone Rx" "TS Rx" (by decide), hvTnRl] at h
      obtain ⟨w2, hw2, h⟩ := except_bind_ok.mp h
      rw [except_pure_ok] at h
      subst h
      constructor
      · intro hne
        exfalso
        apply hne
        rw [lookup_setKey_ne2 "Rx Freq" "Tone Rx" (by decide),
          lookup_setKey_ne2 "Rx Freq" "Tone Tx" (by decide),
          lookup_setKey_ne2 "Rx Freq" "TS Tx" (by decide),
          lookup_setKey_ne2 "Rx Freq" "TS Rx" (by decide), hvRxl,
          lookup_setKey_ne2 "Tx Freq" "Tone Rx" (by decide),
          lookup_setKey_ne2 "Tx Freq" "Tone Tx" (by decide),
          lookup_setKey_ne2 "Tx Freq" "TS Tx" (by decide),
          lookup_setKey_ne2 "Tx Freq" "TS Rx" (by decide), hvTxl, hfr]
      · intro _
        refine ⟨fun _ => ?_, fun _ => ?_⟩
        · rw [lookup_setKey_ne2 "TS Rx" "Tone Rx" (by decide),
            lookup_setKey_ne2 "TS Rx" "Tone Tx" (by decide),
            lookup_setKey_ne2 "TS Rx" "TS Tx" (by decide)]
          exact lookup_setKey_self _ _ _ _ hvTSrl
        · rw [lookup_setKey_ne2 "TS Tx" "Tone Rx" (by decide),
            lookup_setKey_ne2 "TS Tx" "Tone Tx" (by decide)]
          have hin : (setKey base "TS Rx" (.s "ON")).lookup "TS Tx" = some vTSt := by
            rw [lookup_setKey_ne2 "TS Tx" "TS Rx" (by decide)]
            exact hvTStl
          exact lookup_setKey_self _ _ _ _ hin
    · have hwRv : wR = .s "ON" := by rw [hwRval, hb1]; simp
      have hwTv : wT = .s "OFF" := by rw [hwTval, hb4]; simp
      rw [hwRv, hwTv] at h
      simp only [show (some (Value.s "ON") = some (Value.s "ON")) = True by simp,
        show (some (Value.s "OFF") = some (Value.s "ON")) = False by simp,
        if_true, if_false] at h
      rw [lookup_setKey_ne2 "Tone Type Tx" "TS Rx" (by decide), hvTTtl,
        lookup_setKey_ne2 "Tone Tx" "TS Rx" (by decide), hvTnTl] at h
      obtain ⟨w1, hw1, h⟩ := except_bind_ok.mp h
      rw [lookup_setKey_ne2 "Tone Type Rx" "Tone Tx" (by decide),
        lookup_setKey_ne2 "Tone Type Rx" "TS Rx" (by decide), hvTTrl,
        lookup_setKey_ne2 "Tone Rx" "Tone Tx" (by decide),
        lookup_setKey_ne2 "Tone Rx" "TS Rx" (by decide), hvTnRl] at h
      obtain ⟨w2, hw2, h⟩ := except_bind_ok.mp h
      rw [except_pure_ok] at h
      subst h
      constructor
      · intro hne
        exfalso
        apply hne
        rw [lookup_setKey_ne2 "Rx Freq" "Tone Rx" (by decide),
          lookup_setKey_ne2 "Rx Freq" "Tone Tx" (by decide),
          lookup_setKey_ne2 "Rx Freq" "TS Rx" (by decide), hvRxl,
          lookup_setKey_ne2 "Tx Freq" "Tone Rx" (by decide),
          lookup_setKey_ne2 "Tx Freq" "Tone Tx" (by decide),
          lookup_setKey_ne2 "Tx Freq" "TS Rx" (by decide), hvTxl, hfr]
      · intro _
        refine ⟨fun _ => ?_, fun hb => absurd hb (by omega)⟩
        rw [lookup_setKey_ne2 "TS Rx" "Tone Rx" (by decide),
          lookup_setKey_ne2 "TS Rx" "Tone Tx" (by decide)]
        exact lookup_setKey_self _ _ _ _ hvTSrl
    · have hwRv : wR = .s "OFF" := by rw [hwRval, hb1]; simp
      have hwTv : wT = .s "ON" := by rw [hwTval, hb4]; simp
      rw [hwRv, hwTv] at h
      simp only [show (some (Value.s "ON") = some (Value.s "ON")) = True by simp,
        show (some (Value.s "OFF") = some (Value.s "ON")) = False by simp,
        if_true, if_false] at h
      rw [lookup_setKey_ne2 "Tone Type Tx" "TS Tx" (by decide), hvTTtl,
        lookup_setKey_ne2 "Tone Tx" "TS Tx" (by decide), hvTnTl] at h
      obtain ⟨w1, hw1, h⟩ := except_bind_ok.mp h
      rw [lookup_setKey_ne2 "Tone Type Rx" "Tone Tx" (by decide),
        lookup_setKey_ne2 "Tone Type Rx" "TS Tx" (by decide), hvTTrl,
        lookup_setKey_ne2 "Tone Rx" "Tone Tx" (by decide),
        lookup_setKey_ne2 "Tone Rx" "TS Tx" (by decide), hvTnRl] at h
      obtain ⟨w2, hw2, h⟩ := except_bind_ok.mp h
      rw [except_pure_ok] at h
      subst h
      constructor
      · intro hne
        exfalso
        apply hne
        rw [lookup_setKey_ne2 "Rx Freq" "Tone Rx" (by decide),
          lookup_setKey_ne2 "Rx Freq" "Tone Tx" (by decide),
          lookup_setKey_ne2 "Rx Freq" "TS Tx" (by decide), hvRxl,
          lookup_setKey_ne2 "Tx Freq" "Tone Rx" (by decide),
          lookup_setKey_ne2 "Tx Freq" "Tone Tx" (by decide),
          lookup_setKey_ne2 "Tx Freq" "TS Tx" (by decide), hvTxl, hfr]
      · intro _
        refine ⟨fun hb => absurd hb (by omega), fun _ => ?_⟩
        rw [lookup_setKey_ne2 "TS Tx" "Tone Rx" (by decide),
          lookup_setKey_ne2 "TS Tx" "Tone Tx" (by decide)]
        exact lookup_setKey_self _ _ _ _ hvTStl
    · have hwRv : wR = .s "OFF" := by rw [hwRval, hb1]; simp
      have hwTv : wT = .s "OFF" := by rw [hwTval, hb4]; simp
      rw [hwRv, hwTv] at h
      simp only [show (some (Value.s "OFF") = some (Value.s "ON")) = False by simp,
        if_false] at h
      rw [hvTTtl, hvTnTl] at h
      obtain ⟨w1, hw1, h⟩ := except_bind_ok.mp h
      rw [lookup_setKey_ne2 "Tone Type Rx" "Tone Tx" (by decide), hvTTrl,
        lookup_setKey_ne2 "Tone Rx" "Tone Tx" (by decide), hvTnRl] at h
      obtain ⟨w2, hw2, h⟩ := except_bind_ok.mp h
      rw [except_pure_ok] at h
      subst h
      constructor
      · intro hne
        exfalso
        apply hne
        rw [lookup_setKey_ne2 "Rx Freq" "Tone Rx" (by decide),
          lookup_setKey_ne2 "Rx Freq" "Tone Tx" (by decide), hvRxl,
          lookup_setKey_ne2 "Tx Freq" "Tone Rx" (by decide),
          lookup_setKey_ne2 "Tx Freq" "Tone Tx" (by decide), hvTxl, hfr]
      · intro _
        exact ⟨fun hb => absurd hb (by omega), fun hb => absurd hb (by omega)⟩

theorem foldlM_invariant {α : Type} (P : PyBytes → Prop) (f : PyBytes → α → Except Err PyBytes)
    (l : List α) (hstep : ∀ a ∈ l, ∀ bb bb', f bb a = .ok bb' → P bb → P bb') :
    ∀ {b out : PyBytes}, List.foldlM f b l = .ok out → P b → P out := by
  induction l with
  | nil =>
    intro b out h hP
    rw [List.foldlM_nil, except_pure_ok] at h
    rw [← h]; exact hP
  | cons a rest ih =>
    intro b out h hP
    rw [List.foldlM_cons] at h
    obtain ⟨b1, hb1, h2⟩ := except_bind_ok.mp h
    exact ih (fun q hq => hstep q (List.mem_cons_of_mem a hq)) h2
      (hstep a (List.mem_cons_self a rest) b b1 hb1 hP)

/-- What one field-encode step can do to the forced-on flag bits of byte
0x1D: a Bitmask write whose keys never touch bits 0 and 2 of byte 0x1D
preserves them (and the buffer size). -/
theorem writeField_bitmask_preserve {bb bb' : PyBytes} {off mask : Nat}
    {enum : List (Nat × String)} {v? : Option Value}
    (hk : ∀ p ∈ enum, off = 0x1D → p.1 &&& 1 = 0 ∧ p.1 &&& 4 = 0)
    (h : writeField bb (.bitmask off mask enum) v? = .ok bb') :
    bb'.size = bb.size ∧ bb'.byte 0x1D &&& 1 = bb.byte 0x1D &&& 1 ∧
      bb'.byte 0x1D &&& 4 = bb.byte 0x1D &&& 4 := by
  cases v? with
  | none => cases h
  | some v =>
    rw [writeField] at h
    refine foldlM_invariant
      (fun x => x.size = bb.size ∧ x.byte 0x1D &&& 1 = bb.byte 0x1D &&& 1 ∧
        x.byte 0x1D &&& 4 = bb.byte 0x1D &&& 4) _ enum ?_ h ⟨rfl, rfl, rfl⟩
    intro p hp x x' hx hPx
    split at hx
    · obtain ⟨hsz, hby⟩ := (orAt_ok hx).2
      refine ⟨hsz.trans hPx.1, ?_, ?_⟩
      · rw [hby 0x1D]
        by_cases hoff : (0x1D : Nat) = off
        · rw [if_pos hoff]
          rw [or_and_distrib]
          rw [(hk p hp hoff.symm).1, Nat.or_zero, ← hoff]
          exact hPx.2.1
        · rw [if_neg hoff]; exact hPx.2.1
      · rw [hby 0x1D]
        by_cases hoff : (0x1D : Nat) = off
        · rw [if_pos hoff]
          rw [or_and_distrib]
          rw [(hk p hp hoff.symm).2, Nat.or_zero, ← hoff]
          exact hPx.2.2
        · rw [if_neg hoff]; exact hPx.2.2
    · rw [except_pure_ok] at hx; rw [← hx]; exact hPx

/-- A MaskNum write whose mask has bits 0 and 2 of byte 0x1D clear
preserves the flag bits and the size. -/
theorem writeField_masknum_preserve {bb bb' : PyBytes} {off mask : Nat}
    {tf : Option ((ℚ → ℚ) × (ℚ → ℚ))} {v? : Option Value}
    (hm : off = 0x1D → mask &&& 1 = 0 ∧ mask &&& 4 = 0)
    (h : writeField bb (.masknum off mask tf) v? = .ok bb') :
    bb'.size = bb.size ∧ bb'.byte 0x1D &&& 1 = bb.byte 0x1D &&& 1 ∧
      bb'.byte 0x1D &&& 4 = bb.byte 0x1D &&& 4 := by
  have horat : ∀ w, bb.orAt off (pyAnd w mask) = .ok bb' →
      bb'.size = bb.size ∧ bb'.byte 0x1D &&& 1 = bb.byte 0x1D &&& 1 ∧
        bb'.byte 0x1D &&& 4 = bb.byte 0x1D &&& 4 := by
    intro w hw
    obtain ⟨-, hsz, hby⟩ := orAt_ok hw
    refine ⟨hsz, ?_, ?_⟩ <;> rw [hby 0x1D] <;> by_cases hoff : (0x1D : Nat) = off
    · rw [if_pos hoff, or_and_distrib, pyAnd, Nat.and_assoc, (hm hoff.symm).1,
        Nat.and_zero, Nat.or_zero, ← hoff]
    · rw [if_neg hoff]
    · rw [if_pos hoff, or_and_distrib, pyAnd, Nat.and_assoc, (hm hoff.symm).2,
        Nat.and_zero, Nat.or_zero, ← hoff]
    · rw [if_neg hoff]
  cases v? with
  | none => cases h
  | some v =>
    cases tf with
    | some p =>
      cases v with
      | q x => exact horat _ h
      | s st => cases h
    | none =>
      obtain ⟨i, hi, h2⟩ := except_bind_ok.mp h
      exact horat _ h2

theorem pyToBytes_length {v : ℚ} {len : Nat} {bs : List Nat}
    (h : pyToBytes v len = .ok bs) : bs.length = len := by
  rw [pyToBytes] at h
  split at h
  · cases h
  · split at h
    · cases h
    · split at h
      · cases h; simp
      · cases h

/-- A Number write whose byte range stays below (or above) byte 0x1D
preserves the flag bits and the size. -/
theorem writeField_num_preserve {bb bb' : PyBytes} {off len : Nat} {v? : Option Value}
    (h : writeField bb (.num off len) v? = .ok bb')
    (hout : 0x1D < off ∨ off + len ≤ 0x1D) (hrange : off + len ≤ 32)
    (hsz : bb.size = 32) :
    bb'.size = bb.size ∧ bb'.byte 0x1D &&& 1 = bb.byte 0x1D &&& 1 ∧
      bb'.byte 0x1D &&& 4 = bb.byte 0x1D &&& 4 := by
  cases v? with
  | none => cases h
  | some v =>
    cases v with
    | s st => cases h
    | q x =>
      obtain ⟨bs, hbs, h2⟩ := except_bind_ok.mp h
      rw [except_pure_ok] at h2
      subst h2
      have hlen := pyToBytes_length hbs
      have hij : off ≤ off + len := Nat.le_add_right _ _
      have hj : off + len ≤ bb.size := by omega
      have hx : bs.length = (off + len) - off := by omega
      refine ⟨setSlice_size_inrange hij hj hx, ?_, ?_⟩ <;>
        rw [setSlice_byte_outside hij hj hx (by omega)]

/-- A String write that ends below byte 0x1D preserves the flag bits and
the size. -/
theorem writeField_str_preserve {bb bb' : PyBytes} {off len' : Nat} {st : String}
    (h : writeField bb (.str off len') (some (.s st)) = .ok bb')
    (hbound : off + st.length ≤ 0x1D) :
    bb'.size = bb.size ∧ bb'.byte 0x1D &&& 1 = bb.byte 0x1D &&& 1 ∧
      bb'.byte 0x1D &&& 4 = bb.byte 0x1D &&& 4 := by
  obtain ⟨enc, henc, h2⟩ := except_bind_ok.mp h
  refine foldlM_invariant
    (fun x => x.size = bb.size ∧ x.byte 0x1D &&& 1 = bb.byte 0x1D &&& 1 ∧
      x.byte 0x1D &&& 4 = bb.byte 0x1D &&& 4) _ _ ?_ h2 ⟨rfl, rfl, rfl⟩
  intro p hp x x' hx hPx
  have hplt : p < st.length := List.mem_range.mp hp
  obtain ⟨hidx, hszx, hby⟩ := set_ok hx
  refine ⟨hszx.trans hPx.1, ?_, ?_⟩ <;> rw [hby 0x1D, if_neg (by omega)]
  · exact hPx.2.1
  · exact hPx.2.2

/-- Encoding a whole channel record via `channel_info` into a fresh 32-byte
buffer leaves both forced-on flag bits of byte 0x1D clear. -/
theorem toBytes_channel_flagbits {item : List (String × Value)} {out : PyBytes}
    {nm : String}
    (hnm : item.lookup "Name" = some (.s nm)) (hlen : nm.length ≤ 10)
    (h : toBytes (PyBytes.zeros 32) channel_info item = .ok out) :
    out.size = 32 ∧ out.byte 0x1D &&& 1 = 0 ∧ out.byte 0x1D &&& 4 = 0 := by
  refine toBytes_invariant
    (fun x => x.size = 32 ∧ x.byte 0x1D &&& 1 = 0 ∧ x.byte 0x1D &&& 4 = 0)
    ?_ h ⟨rfl, by decide, by decide⟩
  intro p hp bb bb' hw hP
  simp only [channel_info, List.mem_cons, List.not_mem_nil, or_false] at hp
  rcases hp with hp|hp|hp|hp|hp|hp|hp|hp|hp|hp|hp|hp|hp|hp|hp|hp|hp|hp|hp|hp|hp|hp|hp|hp|hp|hp <;>
    subst hp <;> dsimp only at hw <;>
    first
      | (obtain ⟨hs, h1, h4⟩ := writeField_bitmask_preserve (by decide) hw
         exact ⟨hs.trans hP.1, h1.trans hP.2.1, h4.trans hP.2.2⟩)
      | (obtain ⟨hs, h1, h4⟩ := writeField_masknum_preserve (by decide) hw
         exact ⟨hs.trans hP.1, h1.trans hP.2.1, h4.trans hP.2.2⟩)
      | (obtain ⟨hs, h1, h4⟩ := writeField_num_preserve hw (by omega) (by omega) hP.1
         exact ⟨hs.trans hP.1, h1.trans hP.2.1, h4.trans hP.2.2⟩)
      | (rw [hnm] at hw
         obtain ⟨hs, h1, h4⟩ := writeField_str_preserve hw (by omega)
         exact ⟨hs.trans hP.1, h1.trans hP.2.1, h4.trans hP.2.2⟩)

/-- Writing one active-low flag field: the stored bit is 0 for "ON" and the
mask bit for "OFF". -/
theorem writeField_tson {x x' : PyBytes} {off m : Nat} {t : String}
    (ht : t = "ON" ∨ t = "OFF")
    (h : writeField x (.bitmask off m [(0, "ON"), (m, "OFF")]) (some (.s t)) = .ok x') :
    x'.size = x.size ∧
    (∀ j, x'.byte j =
      if j = off then x.byte off ||| (if t = "OFF" then m else 0) else x.byte j) := by
  have h2 : List.foldlM
      (fun b p => if Value.s p.2 = Value.s t then b.orAt off p.1 else pure b) x
      [((0 : Nat), "ON"), (m, "OFF")] = .ok x' := h
  rw [List.foldlM_cons] at h2
  obtain ⟨x1, hx1, h3⟩ := except_bind_ok.mp h2
  dsimp only at hx1 h3
  rw [List.foldlM_cons] at h3
  obtain ⟨x2, hx2, h4⟩ := except_bind_ok.mp h3
  dsimp only at hx2 h4
  rw [List.foldlM_nil, except_pure_ok] at h4
  subst h4
  rcases ht with ht | ht <;> subst ht
  · rw [if_pos rfl] at hx1
    rw [if_neg (by decide)] at hx2
    rw [except_pure_ok] at hx2
    subst hx2
    obtain ⟨-, hsz, hby⟩ := orAt_ok hx1
    exact ⟨hsz, fun j => by rw [hby j]; split <;> simp⟩
  · rw [if_neg (by decide)] at hx1
    rw [except_pure_ok] at hx1
    subst hx1
    rw [if_pos rfl] at hx2
    obtain ⟨-, hsz, hby⟩ := orAt_ok hx2
    exact ⟨hsz, fun j => by rw [hby j]; split <;> simp⟩

/-- Encoding the two timeslot flag fields: the resulting bits of byte 0x1D. -/
theorem tson_toBytes_bits {rec1 rec2 : PyBytes} {t1 t2 : String}
    (h1 : t1 = "ON" ∨ t1 = "OFF") (h2 : t2 = "ON" ∨ t2 = "OFF")
    (h : toBytes rec1 tson_info [("TS Rx ON", Value.s t1), ("TS Tx ON", Value.s t2)]
      = .ok rec2) :
    rec2.size = rec1.size ∧
    rec2.byte 0x1D &&& 1 = (if t1 = "OFF" then 1 else rec1.byte 0x1D &&& 1) ∧
    rec2.byte 0x1D &&& 4 = (if t2 = "OFF" then 4 else rec1.byte 0x1D &&& 4) := by
  have h0 : List.foldlM (fun b p => writeField b p.2
      (List.lookup p.1 [("TS Rx ON", Value.s t1), ("TS Tx ON", Value.s t2)]))
      rec1 tson_info = .ok rec2 := h
  rw [tson_info, List.foldlM_cons] at h0
  obtain ⟨r1, hr1, h3⟩ := except_bind_ok.mp h0
  rw [List.foldlM_cons] at h3
  obtain ⟨r2, hr2, h4⟩ := except_bind_ok.mp h3
  rw [List.foldlM_nil, except_pure_ok] at h4
  subst h4
  rw [show List.lookup "TS Rx ON"
      [("TS Rx ON", Value.s t1), ("TS Tx ON", Value.s t2)] = some (Value.s t1) from rfl] at hr1
  rw [show List.lookup "TS Tx ON"
      [("TS Rx ON", Value.s t1), ("TS Tx ON", Value.s t2)] = some (Value.s t2) from rfl] at hr2
  obtain ⟨hsz1, hby1⟩ := writeField_tson h1 hr1
  obtain ⟨hsz2, hby2⟩ := writeField_tson h2 hr2
  have hb2 : r2.byte 0x1D = (rec1.byte 0x1D ||| (if t1 = "OFF" then 1 else 0)) |||
      (if t2 = "OFF" then 4 else 0) := by
    rw [hby2 0x1D, if_pos rfl, hby1 0x1D, if_pos rfl]
  refine ⟨hsz2.trans hsz1, ?_, ?_⟩
  · rw [hb2, or_and_distrib, or_and_distrib]
    rcases h1 with h1' | h1' <;> subst h1' <;> rcases h2 with h2' | h2' <;> subst h2' <;>
      simp <;>
      rcases Nat.mod_two_eq_zero_or_one (rec1.byte 0x1D) with hc | hc <;> simp [hc]
  · rw [hb2, or_and_distrib, or_and_distrib]
    rcases h1 with h1' | h1' <;> subst h1' <;> rcases h2 with h2' | h2' <;> subst h2' <;>
      simp <;>
      rcases and_four_cases (rec1.byte 0x1D) with hc | hc <;> simp [hc]

/-- Tone conversion only rewrites the value key: every other key's lookup is
unchanged. -/
theorem convertToneKey_lookup {ch ch' : List (String × Value)} {tyKey valKey k : String}
    (hk : k ≠ valKey)
    (h : convertToneKey ch tyKey valKey = .ok ch') :
    ch'.lookup k = ch.lookup k := by
  rw [convertToneKey] at h
  split at h
  · split at h
    · split at h
      · obtain ⟨i, hi, h2⟩ := except_bind_ok.mp h
        rw [except_pure_ok] at h2
        subst h2
        exact lookup_setKey_ne _ _ _ _ hk
      · cases h
    · split at h
      · split at h
        · obtain ⟨i, hi, h2⟩ := except_bind_ok.mp h
          rw [except_pure_ok] at h2
          subst h2
          exact lookup_setKey_ne _ _ _ _ hk
        · cases h
      · rw [except_pure_ok] at h
        subst h
        rfl
  · cases h

/-- Claim C5 (amended): on encode the forced-on flag bits of byte 0x1D are
active-low and mirror exactly the "ON" sentinel: bit 0x01 is clear iff the
channel's "TS Rx" is "ON", and bit 0x04 is clear iff "TS Tx" is "ON",
irrespective of simplex or non-simplex frequencies — the ON-sentinel check
runs after the non-simplex force-off and overrides it. -/
theorem C5_timeslot_encode {ch : List (String × Value)} {rec : PyBytes} {nm : String}
    {tsr tst : Value}
    (hname : ch.lookup "Name" = some (.s nm)) (hlen : nm.length ≤ 10)
    (htsr : ch.lookup "TS Rx" = some tsr) (htst : ch.lookup "TS Tx" = some tst)
    (h : compileChannel ch = .ok rec) :
    rec.size = 32 ∧
    (rec.byte 0x1D &&& 1 = if tsr = .s "ON" then 0 else 1) ∧
    (rec.byte 0x1D &&& 4 = if tst = .s "ON" then 0 else 4) := by
  rw [compileChannel] at h
  obtain ⟨ch1, hc1, h⟩ := except_bind_ok.mp h
  obtain ⟨ch2, hc2, h⟩ := except_bind_ok.mp h
  have hL : ∀ k : String, k ≠ "Tone Rx" → k ≠ "Tone Tx" → ch2.lookup k = ch.lookup k :=
    fun k h1 h2 => (convertToneKey_lookup h1 hc2).trans (convertToneKey_lookup h2 hc1)
  simp only [] at h
  split at h
  case _ rxf heqrx =>
    split at h
    case _ txf heqtx =>
      split at h
      case _ tsrv heqtsr =>
        split at h
        case _ tstv heqtst =>
          have htsrv : tsrv = tsr := by
            have := heqtsr.symm.trans ((hL "TS Rx" (by decide) (by decide)).trans htsr)
            exact Option.some.inj this
          have htstv : tstv = tst := by
            have := heqtst.symm.trans ((hL "TS Tx" (by decide) (by decide)).trans htst)
            exact Option.some.inj this
          subst htsrv htstv
          obtain ⟨rec1, hrec1, h⟩ := except_bind_ok.mp h
          obtain ⟨rec2, hrec2, h⟩ := except_bind_ok.mp h
          rw [except_pure_ok] at h
          subst h
          have hname2 : ch2.lookup "Name" = some (.s nm) :=
            (hL "Name" (by decide) (by decide)).trans hname
          obtain ⟨hsz1, hb1, hb4⟩ := toBytes_channel_flagbits hname2 hlen hrec1
          obtain ⟨hsz2, hbit1, hbit4⟩ := tson_toBytes_bits
            (by split
                · exact Or.inl rfl
                · split <;> exact Or.inr rfl)
            (by split
                · exact Or.inl rfl
                · split <;> exact Or.inr rfl) hrec2
          refine ⟨hsz2.trans hsz1, ?_, ?_⟩
          · rw [hbit1]
            by_cases hon : tsrv = Value.s "ON"
            · rw [if_pos hon, if_pos hon, if_neg (by decide), hb1]
            · rw [if_neg hon, if_neg hon, ite_self, if_pos rfl]
          · rw [hbit4]
            by_cases hon : tstv = Value.s "ON"
            · rw [if_pos hon, if_pos hon, if_neg (by decide), hb4]
            · rw [if_neg hon, if_neg hon, ite_self, if_pos rfl]
        · cases h
      · cases h
    · cases h
  · cases h

/-- Claim C5 counterexample: a non-simplex channel (Rx 439.5 MHz, Tx
438.5 MHz) whose "TS Rx" carries the "ON" sentinel still encodes the Rx
forced-on flag as ON (and decoding the flag fields reads it back as "ON"),
so the flag is not forced OFF irrespective of the declared value. -/
theorem C5_counterexample :
    chNonSimplexOn.lookup "Rx Freq" ≠ chNonSimplexOn.lookup "Tx Freq" ∧
    chNonSimplexOn.lookup "TS Rx" = some (.s "ON") ∧
    ((compileChannel chNonSimplexOn).bind (fromBytes tson_info)).toOption
      = some [("TS Rx ON", Value.s "ON"), ("TS Tx ON", Value.s "OFF")] := by
  decide

/-- Witness for claim C5 at the concrete channel chNonSimplexOn. -/
theorem C5_timeslot_encode_witness :
    (compileChannel chNonSimplexOn).toOption.map
      (fun r => (r.size, r.byte 0x1D &&& 1, r.byte 0x1D &&& 4)) = some (32, 0, 4) := by
  have hs : (compileChannel chNonSimplexOn).toOption.isSome = true := by decide
  have h : compileChannel chNonSimplexOn
      = .ok ((compileChannel chNonSimplexOn).toOption.get hs) :=
    exceptToOption_some (Option.some_get hs).symm
  obtain ⟨h1, h2, h3⟩ := @C5_timeslot_encode chNonSimplexOn
    ((compileChannel chNonSimplexOn).toOption.get hs) "CH2" (.s "ON") (.s "TS2")
    (by decide) (by decide) (by decide) (by decide) h
  rw [← Option.some_get hs, Option.map_some', h1, h2, h3]
  decide

/-- Claim C6: every buffer compileCodeplug returns has exactly the planned
codeplug size computed from the document's contact, zone and channel counts,
and that size is a multiple of 2048; a mismatch is a fatal sizeMismatch
error before returning. -/
theorem C6_size_invariant {codeplug : Codeplug} {out : PyBytes}
    (h : compileCodeplug codeplug = .ok out) :
    out.size = plannedCodeplugSize codeplug ∧ out.size % 2048 = 0 := by
  rw [compileCodeplug] at h
  obtain ⟨t, ht, h2⟩ := except_bind_ok.mp h
  split at h2
  · cases h2
  next hne =>
    rw [except_pure_ok] at h2
    subst h2
    have heq : t.size = plannedCodeplugSize codeplug := not_not.mp hne
    refine ⟨heq, ?_⟩
    rw [heq]
    unfold plannedCodeplugSize
    simp only []
    split <;> omega

/-- Witness for claim C6 at the concrete document docMinimal. -/
theorem C6_size_invariant_witness :
    (compileCodeplug docMinimal).toOption.map PyBytes.size
      = some (plannedCodeplugSize docMinimal) ∧
    plannedCodeplugSize docMinimal % 2048 = 0 := by
  have hs : (compileCodeplug docMinimal).toOption.isSome = true := by decide
  have h : compileCodeplug docMinimal
      = .ok ((compileCodeplug docMinimal).toOption.get hs) :=
    exceptToOption_some (Option.some_get hs).symm
  obtain ⟨h1, h2⟩ := C6_size_invariant h
  constructor
  · rw [← Option.some_get hs, Option.map_some', h1]
  · rw [← h1]; exact h2

/-- Claim C7 (amended): a Number field value outside the declared byte width
(at least 256 to the width, or negative) makes the whole record encode fail
— to_bytes raises OverflowError — while a MaskedNumber field never
range-checks: the value is silently reduced by the field mask and or-ed into
the output byte. -/
theorem C7_width_check
    (defs : List (String × FieldDef)) (item : List (String × Value)) (b bb : PyBytes)
    (k : String) (off len offm mask : Nat) (v w : ℚ)
    (hmem : (k, FieldDef.num off len) ∈ defs)
    (hval : item.lookup k = some (.q v))
    (hbig : (256 : ℚ) ^ len ≤ v ∨ v < 0)
    (hoffm : offm < bb.size) :
    (toBytes b defs item).toOption = none ∧
    (writeField bb (.masknum offm mask none) (some (.q w))).toOption.map
      (fun x => x.byte offm) = some (bb.byte offm ||| pyAnd (pyTrunc w).num mask) := by
  constructor
  · cases htb : toBytes b defs item with
    | error e => rfl
    | ok out =>
      obtain ⟨bb0, bb0', hwn⟩ := toBytes_ok_of_mem htb (k, FieldDef.num off len) hmem
      rw [hval] at hwn
      exact absurd hwn (fun hh => writeField_num_big hbig hh)
  · have hw : writeField bb (.masknum offm mask none) (some (.q w))
        = bb.orAt offm (pyAnd (pyTrunc w).num mask) := rfl
    rw [hw, PyBytes.orAt, if_pos hoffm]
    simp [Except.toOption]

/-- Witness for claim C7: a contact whose 3-byte DMR ID is 256 to the 3rd
fails to encode, while the SMS Prompt MaskedNumber write of 31 silently
stores the masked value. -/
theorem C7_width_check_witness :
    (toBytes (PyBytes.zeros 16) contact_parameters itemContactBig).toOption = none ∧
    (writeField (PyBytes.zeros 0x1400) (.masknum 0xA8 0x0F none)
        (some (.q 31))).toOption.map (fun x => x.byte 0xA8)
      = some ((PyBytes.zeros 0x1400).byte 0xA8 ||| pyAnd (pyTrunc 31).num 0x0F) :=
  C7_width_check contact_parameters itemContactBig (PyBytes.zeros 16) (PyBytes.zeros 0x1400)
    "DMR ID" 0x0D 3 0xA8 0x0F (256 ^ 3) 31
    (by unfold contact_parameters
        exact List.mem_cons_of_mem _ (List.mem_cons_of_mem _ (List.mem_cons_self _ _)))
    (by decide) (Or.inl (by norm_num)) (by decide)

/-- Claim C7 counterexample: the MaskedNumber "SMS Prompt" value 31 exceeds
its 0x0F mask, yet the prompt-tone record encode succeeds and silently
stores the masked value 15 at byte 0xA8. -/
theorem C7_counterexample :
    itemSmsPromptBig.lookup "SMS Prompt" = some (.q 31) ∧
    (toBytes (PyBytes.zeros 0x1400) prompt_tone_parameters itemSmsPromptBig).toOption.map
      (fun b => b.byte 0xA8) = some 15 := by
  decide

theorem contactBlockSizePadded_facts (n : Nat) :
    contactBlockSizePadded n % 1024 = 0 ∧ n * contact_record_size ≤ contactBlockSizePadded n := by
  unfold contactBlockSizePadded contact_record_size
  simp only []
  split <;> omega

theorem contactBlockSize_facts (n : Nat) :
    contactBlockSize n % 1024 = 0 ∧ contactBlockSize n / 1024 % 2 = 1 ∧
    1024 ≤ contactBlockSize n := by
  obtain ⟨h1, h2⟩ := contactBlockSizePadded_facts n
  unfold contactBlockSize
  simp only []
  split <;> omega

theorem zoneStartAddress_eq (n : Nat) :
    zoneStartAddressDecompile n = zoneStartAddressCompile n := by
  have h := (contactBlockSize_facts n).1
  unfold zoneStartAddressDecompile zoneStartAddressCompile contact_start_address
  simp only []
  split <;> omega

/-- Claim C10: for every contact count the computed contact block size is an
odd number of 1024-byte units and at least 1024 bytes; zero contacts still
yield a 1024-byte block, and the zone start address is always strictly
greater than the contact start address 0x1B400, on decode and on encode. -/
theorem C10_contact_layout :
    (∀ n : Nat, contactBlockSize n / 1024 % 2 = 1 ∧ 1024 ≤ contactBlockSize n ∧
      contactBlockSize n % 1024 = 0) ∧
    contactBlockSize 0 = 1024 ∧
    (∀ n : Nat, contact_start_address < zoneStartAddressCompile n ∧
      contact_start_address < zoneStartAddressDecompile n) := by
  refine ⟨fun n => ⟨(contactBlockSize_facts n).2.1, (contactBlockSize_facts n).2.2,
    (contactBlockSize_facts n).1⟩, by decide, fun n => ?_⟩
  have h := (contactBlockSize_facts n).2.2
  rw [zoneStartAddress_eq]
  unfold zoneStartAddressCompile contact_start_address
  omega

/-- Claim C2 counterexample: 64 contacts occupy exactly 1024 bytes, which is
an odd (not even) number of 1024-byte units, so no extra fix-up unit is
added: the contact block stays 1024 bytes and the zone start address is
0x1B800, not 0x1BC00. -/
theorem C2_counterexample :
    contactBlockSizePadded 64 / 1024 = 1 ∧ contactBlockSizePadded 64 / 1024 % 2 = 1 ∧
    contactBlockSize 64 = 1024 ∧ contactBlockSize 64 ≠ contactBlockSizePadded 64 + 1024 ∧
    zoneStartAddressCompile 64 = 0x1B800 ∧ zoneStartAddressCompile 64 ≠ 0x1BC00 := by decide

/-- Claim C2 (amended): whenever the padded contact block occupies an even
number of 1024-byte units, one more 1024-byte unit is added, and both the
encode-side and decode-side zone start addresses sit exactly that far past
the contact start address. -/
theorem C2_contact_padding (n : Nat) (h : contactBlockSizePadded n / 1024 % 2 = 0) :
    contactBlockSize n = contactBlockSizePadded n + 1024 ∧
    zoneStartAddressCompile n = contact_start_address + contactBlockSizePadded n + 1024 ∧
    zoneStartAddressDecompile n = contact_start_address + contactBlockSizePadded n + 1024 := by
  have he : contactBlockSize n = contactBlockSizePadded n + 1024 := by
    unfold contactBlockSize; simp only []; split <;> omega
  refine ⟨he, by unfold zoneStartAddressCompile; omega, ?_⟩
  rw [zoneStartAddress_eq]; unfold zoneStartAddressCompile; omega

/-- Witness for claim C2 at 65 contacts: the padded block is 2048 bytes, an
even unit count, so the fix-up adds a unit. -/
theorem C2_contact_padding_witness :
    contactBlockSizePadded 65 / 1024 % 2 = 0 ∧
    (contactBlockSize 65 = contactBlockSizePadded 65 + 1024 ∧
     zoneStartAddressCompile 65 = contact_start_address + contactBlockSizePadded 65 + 1024 ∧
     zoneStartAddressDecompile 65 = contact_start_address + contactBlockSizePadded 65 + 1024) :=
  ⟨by decide, C2_contact_padding 65 (by decide)⟩

/-- Claim C8: quick-message index i below 15 lives at 0xFAE plus i times 40
(block 1) and index 15 or above at 0x12B plus (i minus 15) times 40
(block 2, a lower address); indices 14 and 15 resolve to distinct
addresses. -/
theorem C8_message_addresses :
    (∀ i : Nat, i < 15 → messageStartAddress i = 0xFAE + i * 40) ∧
    (∀ i : Nat, 15 ≤ i → messageStartAddress i = 0x12B + (i - 15) * 40) ∧
    messageStartAddress 14 ≠ messageStartAddress 15 := by
  refine ⟨fun i h => ?_, fun i h => ?_, by decide⟩
  · unfold messageStartAddress message_block_1_count message_block_1_start_addr message_record_size
    rw [if_pos h]
  · unfold messageStartAddress message_block_1_count message_block_1_start_addr
      message_block_2_start_addr message_record_size
    rw [if_neg (by omega)]

/-- Witness for claim C8 at indices 3 and 20. -/
theorem C8_message_addresses_witness :
    messageStartAddress 3 = 0xFAE + 3 * 40 ∧ messageStartAddress 20 = 0x12B + (20 - 15) * 40 :=
  ⟨C8_message_addresses.1 3 (by decide), C8_message_addresses.2.1 20 (by decide)⟩

/-- Claim C9: an image whose quick-message record 0 decodes to "AB" and
whose record 1 fails ASCII decoding yields the list ["AB", "AB"] — the
previous message is appended again in place of the failing record instead of
the record being skipped — and an image whose very first record fails raises
a NameError, because the loop body appends a variable the failed try block
never assigned. -/
theorem C9_message_duplication :
    decodeQuickMessages imgMsgCorrupt = .ok ["AB", "AB"] ∧
    decodeQuickMessages imgMsgCorruptFirst = .error .nameError := by
  exact ⟨by decide, by decide⟩

/-- Claim C3 counterexample: a channel record with a DCS Rx tone decodes the
"Tone Rx" document field to the number 17, not to the string "D017N" or
"D017I"; and channel-tone resolution of raw index 53 with type DCS yields
the table entry 306, not the string "D017N". -/
theorem C3_counterexample :
    (decompileChannel recToneDCS).toOption.map (fun r => r.lookup "Tone Rx")
      = some (some (.q 17)) ∧
    Value.q 17 ≠ Value.s "D017N" ∧ Value.q 17 ≠ Value.s "D017I" ∧
    resolveTone (.s "DCS") (.q 53) = .ok (.q 306) := by
  refine ⟨by decide, by decide, by decide, by decide⟩

/-- Claim C3 (amended): CTCSS raw index 0 resolves to 62.5; only the APRS
QT/DQT field uses the D-code string form, where raw value 53 decodes to
"D017N" and "D017N" encodes back to 53; a channel DCS tone instead resolves
to the numeric code from the DCS table at the raw index (never equal to the
index itself, and never a string). -/
theorem C3_tone_mapping :
    resolveTone (.s "CTCSS") (.q 0) = .ok (.q (62.5 : ℚ)) ∧
    aprsQtDqtResolve 53 = .ok (.s "D017N") ∧
    aprsQtDqtEncode (.s "D017N") = .ok (.q 53) ∧
    (∀ i : Fin DCS_Codes.length,
      resolveTone (.s "DCS") (.q ((i : Nat) : ℚ)) = .ok (.q ((DCS_Codes.get i : Nat) : ℚ)) ∧
      resolveTone (.s "DCS Invert") (.q ((i : Nat) : ℚ)) = .ok (.q ((DCS_Codes.get i : Nat) : ℚ)) ∧
      DCS_Codes.get i ≠ (i : Nat)) := by
  refine ⟨by decide, by decide, by decide, by decide⟩

/-- Witness for claim C4 at the concrete non-simplex record recNonSimplex,
whose decode is recNonSimplexDecoded. -/
theorem C4_timeslot_decode_witness :
    (recNonSimplexDecoded.lookup "Rx Freq" ≠ recNonSimplexDecoded.lookup "Tx Freq" →
      recNonSimplexDecoded.lookup "TS Rx"
        = some (.s (if recNonSimplex.byte 0x14 &&& 0x01 = 0 then "TS1" else "TS2")) ∧
      recNonSimplexDecoded.lookup "TS Tx"
        = some (.s (if recNonSimplex.byte 0x1D &&& 0x02 = 0 then "TS1" else "TS2"))) ∧
    (recNonSimplexDecoded.lookup "Rx Freq" = recNonSimplexDecoded.lookup "Tx Freq" →
      (recNonSimplex.byte 0x1D &&& 0x01 = 0 →
        recNonSimplexDecoded.lookup "TS Rx" = some (.s "ON")) ∧
      (recNonSimplex.byte 0x1D &&& 0x04 = 0 →
        recNonSimplexDecoded.lookup "TS Tx" = some (.s "ON"))) :=
  C4_timeslot_decode recNonSimplex recNonSimplexDecoded (by decide)

set_option maxRecDepth 100000
/-- Claim C1: the schema table declares both "Alarm" and "Prompt" as the same
bit (byte 0x14, mask 0x08), so a channel with Alarm "OFF" and Prompt "ON"
does not survive an encode-decode round trip: both fields come back "ON". -/
theorem C1_alarm_prompt_alias :
    ((compileChannel chAlarmPrompt).bind decompileChannel).toOption.map
        (fun r => (r.lookup "Alarm", r.lookup "Prompt"))
      = some (some (.s "ON"), some (.s "ON")) ∧
    ((compileChannel chAlarmPrompt).bind decompileChannel).toOption ≠ some chAlarmPrompt := by
  exact ⟨by decide, by decide⟩
